import Mathlib

/-!
# ember-tooltips: `addon/utils/render-tooltip.js`

A shallow embedding of the `renderTooltip` utility: the JavaScript values its
option handling branches on, `parseTooltipOptions`, the target assertion, and
the visibility logic of `setTooltipVisibility` with the run-loop timers it
creates (`run.debounce`, `run.later`, `run.cancel`).
-/

namespace EmberTooltips

/-! ## JavaScript values -/

/-- The numbers of the embedding: integer-valued doubles, `NaN` and the two
infinities.  Fractional numbers and the sign of zero are not represented; the
program only tests numbers for truthiness, `typeof`, `isNaN`, `isFinite` and
calls `toString` on them. -/
inductive JSNum where
  | int (i : Int)
  | nan
  | inf (negative : Bool)
  deriving DecidableEq, Repr

/-- The values an option, an argument or `tooltip.hidden` can hold.
`safeString ref s` is the object `Ember.String.htmlSafe(s)` makes (its
`toString()` is `s`); `obj ref` is any other object.  `ref` is the identity of
the object. -/
inductive JSVal where
  | undefined
  | null
  | bool (b : Bool)
  | num (n : JSNum)
  | str (s : String)
  | safeString (ref : Nat) (s : String)
  | obj (ref : Nat)
  deriving DecidableEq, Repr

/-- ToBoolean: what `if (v)`, `!v` and `v && ...` test. -/
def truthy : JSVal → Bool
  | .undefined => false
  | .null => false
  | .bool b => b
  | .num (.int i) => i != 0
  | .num .nan => false
  | .num (.inf _) => true
  | .str s => s != ""
  | .safeString _ _ => true
  | .obj _ => true

/-- The operator `===`: same type and same value, objects by identity, and
`NaN` equal to nothing. -/
def strictEq (a b : JSVal) : Bool :=
  match a, b with
  | .num .nan, _ => false
  | _, .num .nan => false
  | x, y => decide (x = y)

/-- The test `typeof v === 'string'`. -/
def isStringType : JSVal → Bool
  | .str _ => true
  | _ => false

/-- The test `typeof v === 'number'`. -/
def isNumberType : JSVal → Bool
  | .num _ => true
  | _ => false

/-- Number::toString in radix 10 (digits in full; JavaScript switches to
exponent notation from 1e21 on, which this embedding does not reproduce). -/
def numToString : JSNum → String
  | .int i => toString i
  | .nan => "NaN"
  | .inf false => "Infinity"
  | .inf true => "-Infinity"

/-- ToString, as applied by `'tooltip-' + v` and by `v.toString()`. -/
def toStr : JSVal → String
  | .undefined => "undefined"
  | .null => "null"
  | .bool true => "true"
  | .bool false => "false"
  | .num n => numToString n
  | .str s => s
  | .safeString _ s => s
  | .obj _ => "[object Object]"

/-! ## `parseInt(string, 10)` -/

/-- StrWhiteSpaceChar of ECMAScript: white space and line terminators, which
`parseInt` skips at the start of its input. -/
def isStrWhiteSpaceChar (c : Char) : Bool :=
  let n := c.toNat
  n = 0x09 || n = 0x0A || n = 0x0B || n = 0x0C || n = 0x0D || n = 0x20 || n = 0xA0 ||
  n = 0x1680 || (0x2000 ≤ n && n ≤ 0x200A) || n = 0x2028 || n = 0x2029 || n = 0x202F ||
  n = 0x205F || n = 0x3000 || n = 0xFEFF

/-- A radix-10 digit. -/
def isDecimalDigit (c : Char) : Bool :=
  48 ≤ c.toNat && c.toNat ≤ 57

/-- The mathematical integer a run of decimal digits denotes. -/
def digitsValue (ds : List Char) : Nat :=
  ds.foldl (fun acc c => 10 * acc + (c.toNat - 48)) 0

/-- The number of low bits a natural number has beyond 53 significant bits:
the least `e` with `n / 2 ^ e < 2 ^ 53`, searched for at most `fuel` steps. -/
def excessBits : Nat → Nat → Nat
  | 0, _ => 0
  | fuel + 1, n => if n < 2 ^ 53 then 0 else excessBits fuel (n / 2) + 1

/-- The double nearest to the natural number `n` (ties to even), `none` when
that is `Infinity`.  Below `2 ^ 53` every natural number is a double; 1024 steps
of `excessBits` reach every finite double, and a longer number rounds to
`Infinity` whatever the steps left over. -/
def roundToDouble (n : Nat) : Option Nat :=
  if n < 2 ^ 53 then some n
  else
    let e := excessBits 1024 n
    let q := n / 2 ^ e
    let r := n % 2 ^ e
    let half := 2 ^ (e - 1)
    let q1 := if half < r ∨ (r = half ∧ q % 2 = 1) then q + 1 else q
    let v := q1 * 2 ^ e
    if 2 ^ 1024 ≤ v then none else some v

/-- The builtin `parseInt(s, 10)`: skip leading white space, read an optional sign,
take the longest run of decimal digits; `NaN` when the run is empty, else the
double nearest to the signed value. -/
def parseInt10 (s : String) : JSNum :=
  let trimmed := s.toList.dropWhile isStrWhiteSpaceChar
  let negative : Bool := trimmed.head? = some '-'
  let body :=
    if trimmed.head? = some '-' ∨ trimmed.head? = some '+' then trimmed.tail else trimmed
  let z := body.takeWhile isDecimalDigit
  if z = [] then .nan
  else
    match roundToDouble (digitsValue z) with
    | some m => .int (if negative then - (m : Int) else (m : Int))
    | none => .inf negative

/-- The builtin `isNaN` on a number. -/
def jsIsNaN : JSNum → Bool
  | .nan => true
  | _ => false

/-- The builtin `isFinite` on a number. -/
def jsIsFinite : JSNum → Bool
  | .int _ => true
  | _ => false

/-! ## Options -/

/-- The options object: the properties `renderTooltip` reads, and `others`, every
other property of the object (passed on to the `Tooltip` constructor untouched). -/
@[ext]
structure Options where
  content : JSVal
  duration : JSVal
  event : JSVal
  hideOn : JSVal
  showOn : JSVal
  tabIndex : JSVal
  typeClass : JSVal
  delay : JSVal
  delayOnChange : JSVal
  others : List (String × JSVal)
  deriving DecidableEq, Repr

/-- The object `{}`: every property reads `undefined`. -/
def emptyOptions : Options :=
  { content := .undefined, duration := .undefined, event := .undefined,
    hideOn := .undefined, showOn := .undefined, tabIndex := .undefined,
    typeClass := .undefined, delay := .undefined, delayOnChange := .undefined,
    others := [] }

/-- Modelled from the spec: `isHTMLSafe` of `ember-tooltips/utils/is-html-safe`,
which is not among the sources; the spec has `content` "HTML-safe-aware" and
the wrapper stripped "if present", so it holds of the objects `htmlSafe` makes
and of nothing else. -/
def isHTMLSafe : JSVal → Bool
  | .safeString _ _ => true
  | _ => false

/-- Lines 111-113: `if (typeClass) newOptions.typeClass = 'tooltip-' + typeClass`. -/
def prefixTypeClass (typeClass : JSVal) (newOptions : Options) : Options :=
  if truthy typeClass then
    { newOptions with typeClass := .str ("tooltip-" ++ toStr typeClass) }
  else newOptions

/-- Lines 117-123: the show event, when `newOptions.showOn` is falsy. -/
def setShowOn (event : JSVal) (newOptions : Options) : Options :=
  if !truthy newOptions.showOn then
    if strictEq event (.str "hover") then { newOptions with showOn := .str "mouseenter" }
    else { newOptions with showOn := event }
  else newOptions

/-- Lines 125-135: the hide event, when `newOptions.hideOn` is falsy. -/
def setHideOn (event : JSVal) (newOptions : Options) : Options :=
  if !truthy newOptions.hideOn then
    if strictEq event (.str "hover") then { newOptions with hideOn := .str "mouseleave" }
    else if strictEq event (.str "focus") then { newOptions with hideOn := .str "blur" }
    else if strictEq event (.str "ready") then { newOptions with hideOn := .null }
    else { newOptions with hideOn := event }
  else newOptions

/-- Lines 139-149: a truthy string `duration` becomes `parseInt(duration, 10)`, or
`null` when that is `NaN` or not finite. -/
def cleanDurationOf (duration : JSVal) (newOptions : Options) : Options :=
  if truthy duration && isStringType duration then
    let parsed := parseInt10 (toStr duration)
    let cleanDuration : JSVal :=
      if jsIsNaN parsed || !jsIsFinite parsed then .null else .num parsed
    { newOptions with duration := cleanDuration }
  else newOptions

/-- Lines 151-161: a truthy string `delay` becomes `parseInt(delay, 10)`, or `0`
when that is `NaN` or not finite. -/
def cleanDelayOf (delay : JSVal) (newOptions : Options) : Options :=
  if truthy delay && isStringType delay then
    let parsed := parseInt10 (toStr delay)
    let cleanDelay : JSVal :=
      if jsIsNaN parsed || !jsIsFinite parsed then .num (.int 0) else .num parsed
    { newOptions with delay := cleanDelay }
  else newOptions

/-- Lines 164-168: a number `tabIndex` becomes its string, a falsy one `'-1'`. -/
def stringifyTabIndex (tabIndex : JSVal) (newOptions : Options) : Options :=
  if isNumberType tabIndex then { newOptions with tabIndex := .str (toStr tabIndex) }
  else if !truthy tabIndex then { newOptions with tabIndex := .str "-1" }
  else newOptions

/-- Lines 172-174: an HTML-safe `content` becomes `content.toString()`. -/
def unwrapContent (content : JSVal) (newOptions : Options) : Options :=
  if isHTMLSafe content then { newOptions with content := .str (toStr content) }
  else newOptions

/-- `parseTooltipOptions(options)`, lines 105-177.  The source writes into the
object it was given and returns it; here the written object is the result.
`content`, `duration`, `event`, `tabIndex`, `typeClass` and `delay` are read once,
before any write (line 107); `showOn` and `hideOn` are read from the object. -/
def parseTooltipOptions (options : Options) : Options :=
  let newOptions := options
  let content := newOptions.content
  let duration := newOptions.duration
  let event := newOptions.event
  let tabIndex := newOptions.tabIndex
  let typeClass := newOptions.typeClass
  let delay := newOptions.delay
  let newOptions := prefixTypeClass typeClass newOptions
  let newOptions := setShowOn event newOptions
  let newOptions := setHideOn event newOptions
  let newOptions := cleanDurationOf duration newOptions
  let newOptions := cleanDelayOf delay newOptions
  let newOptions := stringifyTabIndex tabIndex newOptions
  let newOptions := unwrapContent content newOptions
  newOptions

/-! ## The target assertion (line 21) -/

/-- What `renderTooltip` receives as `domElement`.  `plain v` is a value on which
`.tagName` reads `undefined`: `null` and `undefined` (where line 21 never reads
it), a primitive, or an object without that property, such as a jQuery object.
`node tagName` is an object whose `tagName` property holds `tagName`; a DOM
element has its upper-case tag name there. -/
inductive Target where
  | plain (v : JSVal)
  | node (tagName : JSVal)
  deriving DecidableEq, Repr

/-- ToBoolean of the argument: an object is truthy. -/
def Target.truthy : Target → Bool
  | .plain v => EmberTooltips.truthy v
  | .node _ => true

/-- The value of `domElement.tagName`. -/
def Target.tagName : Target → JSVal
  | .plain _ => .undefined
  | .node t => t

/-- The message of the assertion of line 21. -/
def invalidTargetMessage : String :=
  "You must pass a DOM element as the first argument to the renderTooltip util"

/-- The test of line 21: `!domElement || (domElement && !!domElement.tagName)`. -/
def targetTest (domElement : Target) : Bool :=
  !domElement.truthy || (domElement.truthy && truthy domElement.tagName)

/-- `Ember.assert(desc, test)` of a debug build: throws an error with the message
`desc` when `test` is falsy. -/
def emberAssert (desc : String) (test : Bool) : Except String Unit :=
  if test then .ok () else .error desc

/-! ## The tooltip instance and the run loop -/

/-- The `Tooltip` constructor is the global `window.Tooltip` (line 5), a widget that
is not part of the sources.  `renderTooltip` uses its property `hidden` and its
methods `show()` and `hide()`, which take effect at once.  The embedding takes as
parameters the two values the widget keeps in `hidden`: `hiddenValue` while the bubble
is hidden (also the value a new tooltip starts with) and `shownValue` while it is
shown.  `show()` puts the tooltip element, which has the class `tooltip`, into the
document and `hide()` takes it out: the acceptance test counts one `.tooltip` element
once one of the tooltips of its page is shown. -/
structure Widget where
  hiddenValue : JSVal
  shownValue : JSVal
  deriving DecidableEq, Repr

/-- A widget that keeps the booleans `true` and `false` in `hidden`. -/
def booleanWidget : Widget :=
  { hiddenValue := .bool true, shownValue := .bool false }

/-- A widget that keeps the numbers `1` and `0` in `hidden`. -/
def numericWidget : Widget :=
  { hiddenValue := .num (.int 1), shownValue := .num (.int 0) }

/-- The host object `context`: the two lifecycle flags line 51 and line 70 read,
and the property `tooltipVisibility` that `context.set` writes. -/
structure Context where
  isDestroying : Bool
  isDestroyed : Bool
  tooltipVisibility : JSVal
  deriving DecidableEq, Repr

/-- What a timer of the run loop does when it fires: the function given to
`run.debounce` at line 40, with the `shouldShow` of its closure; the function given
to `run.later` at line 68; or the call `tooltip.hide()` of the timer of line 80. -/
inductive TimerKind where
  | debounce (shouldShow : Bool)
  | delay
  | hide
  deriving DecidableEq, Repr

/-- A pending timer of the run loop: its handle, what it runs, and the time in
milliseconds from which it may fire. -/
structure Timer where
  id : Nat
  kind : TimerKind
  due : Nat
  deriving DecidableEq, Repr

/-- An entry of the run loop's list of debouncees: the method a pending debounce was
registered with (the identity of the function object; the target is `null` in every
call of line 40) and the timer that will run it. -/
structure Debouncee where
  method : Nat
  timer : Nat
  deriving DecidableEq, Repr

/-- The listeners `renderTooltip` can bind on the target: the one of line 192, bound
to `showOn` when it equals `hideOn`; those of lines 200 and 206, bound to `showOn` and
to `hideOn`; and those of `focusin`, `focusout` and `keydown`. -/
inductive Listener where
  | toggle
  | showOn
  | hideOn
  | focusin
  | focusout
  | keydown
  deriving DecidableEq, Repr

/-- The variables the closures of `renderTooltip` share. -/
structure Config where
  widget : Widget
  /-- The parsed options of line 24. -/
  options : Options
  /-- The id of line 26, `tooltip-<tooltipIndex>`. -/
  tooltipId : String
  /-- The listeners bound on the target. -/
  listeners : List Listener
  deriving DecidableEq, Repr

/-- The state one tooltip instance and its surroundings are in.  `hidden`,
`delayTimer` and `hideTimer` are the properties `hidden`, `_delayTimer` and
`_hideTimer` of the tooltip; `ariaHidden` is the attribute `aria-hidden` of the
tooltip element and `describedBy` the attribute `aria-describedby` of the target;
`timers` and `debouncees` are the run loop's pending timers and debouncees;
`inDocument` tells whether the tooltip element is in the document, and `otherTooltips`
is the number of other elements of class `tooltip` in the document.  `showCalls`,
`hideCalls` and `bodyRuns` record the calls of `tooltip.show()`, of `tooltip.hide()`
and the runs of the debounced function (time and `shouldShow`), latest first. -/
structure State where
  now : Nat
  hidden : JSVal
  ariaHidden : Option String
  describedBy : Option String
  context : Option Context
  delayTimer : Option Nat
  hideTimer : Option Nat
  timers : List Timer
  debouncees : List Debouncee
  nextTimer : Nat
  nextFunction : Nat
  inDocument : Bool
  otherTooltips : Nat
  showCalls : Nat
  hideCalls : Nat
  bodyRuns : List (Nat × Bool)
  deriving DecidableEq, Repr

/-- The wait the run loop takes from the last argument of `run.later`: a number
counts as it is, a negative one or `NaN` as no wait, and a value that is no number
is not taken for a wait at all.  (An infinite wait is outside the embedding and
counts as none.) -/
def waitOf : JSVal → Nat
  | .num (.int i) => i.toNat
  | _ => 0

/-- `run.later(..., wait)`: a new pending timer, due `wait` ms from now; the result
is its handle. -/
def runLater (kind : TimerKind) (wait : Nat) (s : State) : Nat × State :=
  (s.nextTimer,
    { s with timers := s.timers ++ [{ id := s.nextTimer, kind := kind, due := s.now + wait }],
             nextTimer := s.nextTimer + 1 })

/-- `run.cancel(timer)`: the timer with that handle is pending no more.  Nothing
happens for `undefined` and for a timer that fired or was cancelled before. -/
def runCancel (handle : Option Nat) (s : State) : State :=
  match handle with
  | none => s
  | some h => { s with timers := s.timers.filter (fun t => t.id != h) }

/-- `run.debounce(null, method, wait)`: when the list of debouncees has an entry
with the same target and the same method (the same function object), its timer
is cleared and the entry removed; then a timer is set that runs `method` after
`wait` ms, and entered in the list. -/
def runDebounce (method : Nat) (shouldShow : Bool) (wait : Nat) (s : State) : State :=
  let s1 : State :=
    match s.debouncees.find? (fun d => d.method == method) with
    | some d =>
      { s with timers := s.timers.filter (fun t => t.id != d.timer),
               debouncees := s.debouncees.filter (fun e => e.method != method) }
    | none => s
  let (timer, s2) := runLater (.debounce shouldShow) wait s1
  { s2 with debouncees := s2.debouncees ++ [{ method := method, timer := timer }] }

/-- `setTooltipVisibility(shouldShow)`, lines 35-96: one call of `run.debounce`.  The
method it passes is the function expression of line 40, which evaluates to a new
function object at every call; `nextFunction` is the identity of that object. -/
def setTooltipVisibility (shouldShow : Bool) (s : State) : State :=
  let method := s.nextFunction
  let s1 := { s with nextFunction := s.nextFunction + 1 }
  runDebounce method shouldShow 150 s1

/-- `tooltip.show()`. -/
def tooltipShow (cfg : Config) (s : State) : State :=
  { s with hidden := cfg.widget.shownValue, inDocument := true,
           showCalls := s.showCalls + 1 }

/-- `tooltip.hide()`. -/
def tooltipHide (cfg : Config) (s : State) : State :=
  { s with hidden := cfg.widget.hiddenValue, inDocument := false,
           hideCalls := s.hideCalls + 1 }

/-- `Ember.$('.tooltip').length`: the elements of class `tooltip` in the document, that
of this tooltip among them while it is there. -/
def tooltipElements (s : State) : Nat :=
  s.otherTooltips + (if s.inDocument then 1 else 0)

/-- `context.set('tooltipVisibility', value)`. -/
def contextSet (value : Bool) (s : State) : State :=
  match s.context with
  | some c => { s with context := some { c with tooltipVisibility := .bool value } }
  | none => s

/-- Lines 60-66: the wait of the show timer. -/
def showTooltipDelay (cfg : Config) (s : State) : JSVal :=
  let delay := cfg.options.delay
  if !truthy cfg.options.delayOnChange then
    let visibleTooltips := tooltipElements s
    if visibleTooltips != 0 then .num (.int 0) else delay
  else delay

/-- The function given to `run.later` at line 68, lines 69-85. -/
def delayCallback (cfg : Config) (s : State) : State :=
  match s.context with
  | none => s
  | some c =>
    if c.isDestroying || c.isDestroyed then s
    else
      let s1 := tooltipShow cfg s
      let s2 := { s1 with ariaHidden := some "true" }
      let s3 := contextSet true s2
      let s4 := { s3 with describedBy := some cfg.tooltipId }
      if truthy cfg.options.duration then
        let (hideTimer, s5) := runLater .hide (waitOf cfg.options.duration) s4
        { s5 with hideTimer := some hideTimer }
      else s4

/-- The function given to `run.debounce` at line 40, lines 42-94. -/
def visibilityBody (cfg : Config) (shouldShow : Bool) (s : State) : State :=
  let s0 := { s with bodyRuns := (s.now, shouldShow) :: s.bodyRuns }
  let s1 := runCancel s0.delayTimer s0
  if strictEq s1.hidden (.bool shouldShow) then s1
  else if (match s1.context with
      | some c => c.isDestroying
      | none => false) then s1
  else
    let s2 := runCancel s1.hideTimer s1
    if shouldShow then
      let (delayTimer, s3) := runLater .delay (waitOf (showTooltipDelay cfg s2)) s2
      { s3 with delayTimer := some delayTimer }
    else
      let s3 := tooltipHide cfg s2
      let s4 := { s3 with ariaHidden := some "false" }
      let s5 := contextSet false s4
      { s5 with describedBy := none }

/-- What the run loop does when the pending timer `t` fires. -/
def fireTimer (cfg : Config) (t : Timer) (s : State) : State :=
  let s1 := { s with now := max s.now t.due,
                     timers := s.timers.filter (fun u => u.id != t.id) }
  match t.kind with
  | .debounce shouldShow =>
    let s2 := visibilityBody cfg shouldShow s1
    { s2 with debouncees := s2.debouncees.filter (fun e => e.timer != t.id) }
  | .delay => delayCallback cfg s1
  | .hide => tooltipHide cfg s1

/-! ## The listeners (lines 186-233) -/

/-- The listeners lines 186-233 bind, for the parsed options.  Which events reach a
listener is left to the run: the event type it is bound to (`showOn`, `hideOn`) is
whatever jQuery makes of that value. -/
def boundListeners (options : Options) : List Listener :=
  let event := options.event
  let showOn := options.showOn
  let hideOn := options.hideOn
  if !strictEq event (.str "manual") && !strictEq event (.str "none") then
    (if strictEq showOn hideOn then [Listener.toggle]
     else
      (if !strictEq showOn (.str "none") then [Listener.showOn] else []) ++
      (if !strictEq hideOn (.str "none") then [Listener.hideOn] else [])) ++
    (if !strictEq event (.str "focus") then [Listener.focusin, Listener.focusout] else []) ++
    [Listener.keydown]
  else []

/-- What a listener does with an event; `which` is the property of that name of a
`keydown` event. -/
def runListener (l : Listener) (which : Nat) (s : State) : State :=
  match l with
  | .toggle => setTooltipVisibility (truthy s.hidden) s
  | .showOn => setTooltipVisibility true s
  | .hideOn => setTooltipVisibility false s
  | .focusin => setTooltipVisibility true s
  | .focusout => setTooltipVisibility false s
  | .keydown => if which = 27 then setTooltipVisibility false s else s

/-! ## Runs -/

/-- What can happen to a rendered tooltip: an event reaches one of the listeners;
the run loop fires a pending timer; time passes; the host changes its lifecycle
flags; other code changes the number of other `.tooltip` elements in the document. -/
inductive Action where
  | dom (l : Listener) (which : Nat)
  | fire (id : Nat)
  | elapse (ms : Nat)
  | host (isDestroying : Bool) (isDestroyed : Bool)
  | tooltips (n : Nat)
  deriving DecidableEq, Repr

/-- One action.  An event does something only when its listener is bound; a timer
fires only while it is pending, and never before it is due (the clock moves on to
its due time when it fires early in the run). -/
def step (cfg : Config) (a : Action) (s : State) : State :=
  match a with
  | .dom l which => if l ∈ cfg.listeners then runListener l which s else s
  | .fire id =>
    match s.timers.find? (fun t => t.id == id) with
    | some t => fireTimer cfg t s
    | none => s
  | .elapse ms => { s with now := s.now + ms }
  | .host isDestroying isDestroyed =>
    match s.context with
    | some c =>
      let c1 : Context := { c with isDestroying := isDestroying, isDestroyed := isDestroyed }
      { s with context := some c1 }
    | none => s
  | .tooltips n => { s with otherTooltips := n }

/-- A run: the actions of a list, one after the other. -/
def run (cfg : Config) (actions : List Action) (s : State) : State :=
  actions.foldl (fun acc a => step cfg a acc) s

/-- The run loop fires timers on time and in order: `fire id` is on time when the
timer is pending, the clock stands at its due time or later, and no pending timer
is due earlier (or as early, and older); `elapse ms` is on time when it does not
pass the due time of a pending timer. -/
def onTime (a : Action) (s : State) : Bool :=
  match a with
  | .fire id =>
    match s.timers.find? (fun t => t.id == id) with
    | some t =>
      decide (t.due ≤ s.now) &&
        s.timers.all (fun u => decide (t.due < u.due) || (t.due == u.due && decide (t.id ≤ u.id)))
    | none => false
  | .elapse ms => s.timers.all (fun u => decide (s.now + ms ≤ u.due))
  | _ => true

/-- Every action of the run is on time in the state it is applied to. -/
def runOnTime (cfg : Config) : List Action → State → Bool
  | [], _ => true
  | a :: rest, s => onTime a s && runOnTime cfg rest (step cfg a s)

/-! ## `renderTooltip` -/

/-- What `renderTooltip` leaves behind: the variables of its closures, the state of the
new tooltip, and the module's counter `tooltipIndex` after line 247. -/
structure Rendered where
  cfg : Config
  state : State
  tooltipIndex : Nat
  deriving DecidableEq, Repr

/-- The state of a tooltip that was just created: hidden, no attribute set, no
timer pending. -/
def initialState (widget : Widget) (context : Option Context) (now otherTooltips : Nat) :
    State :=
  { now := now, hidden := widget.hiddenValue, ariaHidden := none, describedBy := none,
    context := context, delayTimer := none, hideTimer := none, timers := [],
    debouncees := [], nextTimer := 0, nextFunction := 0, inDocument := false,
    otherTooltips := otherTooltips,
    showCalls := 0, hideCalls := 0, bodyRuns := [] }

/-- `renderTooltip(domElement, options, context)`, lines 19-250, at the time `now`, with
the module's counter at `tooltipIndex` and `otherTooltips` elements of class `tooltip`
in the document.  `options = none` is the call without options, which line 105 reads as
`{}`.  The result is the error of the assertion of line 21, or the tooltip with its
listeners bound: those of `boundListeners` for the parsed options, and none when
`$(domElement)` is the empty set of a falsy `domElement`.  The attributes lines 237-245
set (`id`, `role`, `tabindex`) are read by nothing here and are left out. -/
def renderTooltip (widget : Widget) (tooltipIndex now otherTooltips : Nat)
    (domElement : Target) (options : Option Options) (context : Option Context) :
    Except String Rendered :=
  match emberAssert invalidTargetMessage (targetTest domElement) with
  | .error e => .error e
  | .ok _ =>
    let parsedOptions := parseTooltipOptions (options.getD emptyOptions)
    let tooltipId := "tooltip-" ++ toString tooltipIndex
    let listeners := if domElement.truthy then boundListeners parsedOptions else []
    .ok { cfg := { widget := widget, options := parsedOptions, tooltipId := tooltipId,
                   listeners := listeners },
          state := initialState widget context now otherTooltips,
          tooltipIndex := tooltipIndex + 1 }

/-- The tooltip is shown: its `hidden` is falsy. -/
def isShown (s : State) : Bool :=
  !truthy s.hidden

/-! ## Pending timers by kind -/

/-- The pending show timers (those of line 68). -/
def delayTimers (s : State) : List Timer :=
  s.timers.filter (fun t => t.kind == .delay)

/-- The pending auto-hide timers (those of line 80). -/
def hideTimers (s : State) : List Timer :=
  s.timers.filter (fun t => t.kind == .hide)

/-- The handle `h` is that of a pending timer. -/
def isPending (h : Option Nat) (s : State) : Bool :=
  s.timers.any (fun t => some t.id == h)

/-- The action leaves the document without any `.tooltip` element. -/
def keepsNoTooltip : Action → Bool
  | .tooltips n => n == 0
  | _ => true

/-! ## Scenarios -/

/-- A host that is neither destroying nor destroyed. -/
def liveContext : Context :=
  { isDestroying := false, isDestroyed := false, tooltipVisibility := .undefined }

/-- A DOM element, `<div>`. -/
def divElement : Target :=
  .node (.str "DIV")

/-- The options `{ event: 'hover', duration: 500 }`. -/
def autoHideOptions : Options :=
  { emptyOptions with event := .str "hover", duration := .num (.int 500) }

/-- The options `{ event: 'hover', delay: 1000 }` of the delay test. -/
def delayOptions : Options :=
  { emptyOptions with event := .str "hover", delay := .num (.int 1000) }

/-- The pointer enters the target at 0 ms; the debounced function runs at 150 ms
(timer 0) and the show timer right after it (timer 1, no delay). -/
def showRun : List Action :=
  [.dom .showOn 0, .elapse 150, .fire 0, .fire 1]

/-- After `showRun`, 500 ms pass and the auto-hide timer (timer 2) fires. -/
def autoHideRun : List Action :=
  showRun ++ [.elapse 500, .fire 2]

/-- After `showRun`, the host starts being destroyed at 400 ms; the auto-hide timer
(timer 2) fires at 650 ms. -/
def destroyedRun : List Action :=
  showRun ++ [.elapse 250, .host true false, .elapse 250, .fire 2]

/-- After `showRun`, at 200 ms the target gets the focus (`focusin`, a request to show
the tooltip that is shown); the debounced function runs at 350 ms (timer 3). -/
def showAgainRun : List Action :=
  showRun ++ [.elapse 50, .dom .focusin 0, .elapse 150, .fire 3]

/-- The pointer enters the target at 0 ms and leaves it at 10 ms: two calls of
`setTooltipVisibility` 10 ms apart.  Timer 0 (the first call) fires at 150 ms and
the show timer it sets (timer 2) right after it; timer 1 (the second call) fires
at 160 ms. -/
def rapidRun : List Action :=
  [.dom .showOn 0, .elapse 10, .dom .hideOn 0, .elapse 140, .fire 0, .fire 2, .elapse 10,
    .fire 1]

/-- The pointer enters the target at 0 ms; the debounced function runs at 150 ms
(timer 0) and the show timer 1000 ms later (timer 1). -/
def delayedShowRun : List Action :=
  [.dom .showOn 0, .elapse 150, .fire 0, .elapse 1000, .fire 1]

/-- After `showRun` with the options of the delay test, the host starts being destroyed
at 650 ms, before the show timer (timer 1, due at 1150 ms) fires. -/
def destroyedBeforeShowRun : List Action :=
  [.dom .showOn 0, .elapse 150, .fire 0, .elapse 500, .host true false, .elapse 500, .fire 1]

/-! ## The invariant on show and auto-hide timers -/

/-- What holds of the pending timers and the two stored handles in every state a
tooltip reaches: handles are older than the next one; a pending show timer is the one
stored in `_delayTimer` and a pending auto-hide timer the one stored in `_hideTimer`;
while a show timer is pending no auto-hide timer is; and at most one of each kind is
pending. -/
structure TimersOk (s : State) : Prop where
  fresh : ∀ t ∈ s.timers, t.id < s.nextTimer
  delayFresh : ∀ h, s.delayTimer = some h → h < s.nextTimer
  hideFresh : ∀ h, s.hideTimer = some h → h < s.nextTimer
  delayStored : ∀ t ∈ s.timers, t.kind = .delay → s.delayTimer = some t.id
  hideStored : ∀ t ∈ s.timers, t.kind = .hide → s.hideTimer = some t.id
  hideKind : ∀ t ∈ s.timers, s.hideTimer = some t.id → t.kind = .hide
  exclusive : ∀ t ∈ s.timers, t.kind = .delay → ∀ u ∈ s.timers, u.kind ≠ .hide
  oneDelay : (delayTimers s).length ≤ 1
  oneHide : (hideTimers s).length ≤ 1

/-- The step from `s` to `r` keeps the invariant, and where it sets a new show timer or
a new auto-hide timer, the timer stored before in `_delayTimer` (in `_hideTimer`) is
pending no more. -/
def StepOk (s r : State) : Prop :=
  TimersOk r ∧
  (∀ t ∈ r.timers, t ∉ s.timers → t.kind = .delay → isPending s.delayTimer r = false) ∧
  (∀ t ∈ r.timers, t ∉ s.timers → t.kind = .hide → isPending s.hideTimer r = false)

/-! ## The show timer and the delay -/

/-- The options `{ event: 'hover', delay: 1000, delayOnChange: false }`. -/
def noDelayOnChangeOptions : Options :=
  { emptyOptions with event := .str "hover", delay := .num (.int 1000),
                      delayOnChange := .bool false }

/-- The options `{ event: 'hover', delay: 1000, delayOnChange: true }`. -/
def delayOnChangeOptions : Options :=
  { emptyOptions with event := .str "hover", delay := .num (.int 1000),
                      delayOnChange := .bool true }

/-- After `delayedShowRun` the tooltip is shown, at 1150 ms; at 1200 ms the target gets
the focus, and the debounced function runs at 1350 ms (timer 2). -/
def reshowRun : List Action :=
  delayedShowRun ++ [.elapse 50, .dom .focusin 0, .elapse 150, .fire 2]

/-- The pointer enters the target at 0 ms and the debounced function runs at 150 ms
(timer 0). -/
def requestRun : List Action :=
  [.dom .showOn 0, .elapse 150, .fire 0]

/-- The pointer enters the target at 0 ms; the debounced function runs at 150 ms
(timer 0); the target gets the focus at 1100 ms; the show timer of the first request
(timer 1) fires at 1150 ms. -/
def secondRequestRun : List Action :=
  [.dom .showOn 0, .elapse 150, .fire 0, .elapse 950, .dom .focusin 0, .elapse 50, .fire 1]

/-- What holds in a run that starts at the time `start` with the tooltip hidden and
no show timer or debounced call pending, for the delay `d`: the debounced function runs
no earlier than `start + 150`, a show timer fires no earlier than `start + 150 + d`, and
before that time the tooltip is hidden, its element is not in the document and `show()`
has not been called again (`shows` calls so far). -/
structure NotBefore (cfg : Config) (start d shows : Nat) (s : State) : Prop where
  later : start ≤ s.now
  debounceDue : ∀ t ∈ s.timers, ∀ b, t.kind = .debounce b → start + 150 ≤ t.due
  delayDue : ∀ t ∈ s.timers, t.kind = .delay → start + 150 + d ≤ t.due
  hiddenBefore : s.now < start + 150 + d →
    truthy s.hidden = true ∧ s.inDocument = false ∧ s.showCalls = shows
  quiet : truthy cfg.options.delayOnChange = true ∨ s.otherTooltips = 0

/-! ## `parseTooltipOptions`: each step as one field update -/

theorem prefixTypeClass_eq (t : JSVal) (o : Options) :
    prefixTypeClass t o =
      { o with typeClass := if truthy t then .str ("tooltip-" ++ toStr t) else o.typeClass } := by
  unfold prefixTypeClass; split <;> rfl

theorem setShowOn_eq (e : JSVal) (o : Options) :
    setShowOn e o =
      { o with showOn := if truthy o.showOn then o.showOn
                         else if strictEq e (.str "hover") then .str "mouseenter" else e } := by
  unfold setShowOn; split_ifs <;> simp_all

theorem setHideOn_eq (e : JSVal) (o : Options) :
    setHideOn e o =
      { o with hideOn := if truthy o.hideOn then o.hideOn
                         else if strictEq e (.str "hover") then .str "mouseleave"
                         else if strictEq e (.str "focus") then .str "blur"
                         else if strictEq e (.str "ready") then .null else e } := by
  unfold setHideOn; split_ifs <;> simp_all

theorem cleanDurationOf_eq (d : JSVal) (o : Options) :
    cleanDurationOf d o =
      { o with duration :=
          if truthy d && isStringType d then
            (if jsIsNaN (parseInt10 (toStr d)) || !jsIsFinite (parseInt10 (toStr d)) then .null
             else .num (parseInt10 (toStr d)))
          else o.duration } := by
  unfold cleanDurationOf; split <;> rfl

theorem cleanDelayOf_eq (d : JSVal) (o : Options) :
    cleanDelayOf d o =
      { o with delay :=
          if truthy d && isStringType d then
            (if jsIsNaN (parseInt10 (toStr d)) || !jsIsFinite (parseInt10 (toStr d)) then
              .num (.int 0)
             else .num (parseInt10 (toStr d)))
          else o.delay } := by
  unfold cleanDelayOf; split <;> rfl

theorem stringifyTabIndex_eq (t : JSVal) (o : Options) :
    stringifyTabIndex t o =
      { o with tabIndex :=
          if isNumberType t then .str (toStr t)
          else if truthy t then o.tabIndex else .str "-1" } := by
  unfold stringifyTabIndex; split_ifs <;> simp_all

theorem unwrapContent_eq (c : JSVal) (o : Options) :
    unwrapContent c o =
      { o with content := if isHTMLSafe c then .str (toStr c) else o.content } := by
  unfold unwrapContent; split <;> rfl

/-- The result of `parseTooltipOptions`, property by property. -/
theorem parseTooltipOptions_eq (o : Options) :
    parseTooltipOptions o =
      { content := if isHTMLSafe o.content then .str (toStr o.content) else o.content
        duration :=
          if truthy o.duration && isStringType o.duration then
            (if jsIsNaN (parseInt10 (toStr o.duration)) ||
                !jsIsFinite (parseInt10 (toStr o.duration)) then .null
             else .num (parseInt10 (toStr o.duration)))
          else o.duration
        event := o.event
        hideOn :=
          if truthy o.hideOn then o.hideOn
          else if strictEq o.event (.str "hover") then .str "mouseleave"
          else if strictEq o.event (.str "focus") then .str "blur"
          else if strictEq o.event (.str "ready") then .null else o.event
        showOn :=
          if truthy o.showOn then o.showOn
          else if strictEq o.event (.str "hover") then .str "mouseenter" else o.event
        tabIndex :=
          if isNumberType o.tabIndex then .str (toStr o.tabIndex)
          else if truthy o.tabIndex then o.tabIndex else .str "-1"
        typeClass :=
          if truthy o.typeClass then .str ("tooltip-" ++ toStr o.typeClass) else o.typeClass
        delay :=
          if truthy o.delay && isStringType o.delay then
            (if jsIsNaN (parseInt10 (toStr o.delay)) ||
                !jsIsFinite (parseInt10 (toStr o.delay)) then .num (.int 0)
             else .num (parseInt10 (toStr o.delay)))
          else o.delay
        delayOnChange := o.delayOnChange
        others := o.others } := by
  simp only [parseTooltipOptions, prefixTypeClass_eq, setShowOn_eq, setHideOn_eq,
    cleanDurationOf_eq, cleanDelayOf_eq, stringifyTabIndex_eq, unwrapContent_eq]

/-! ## Strings of numbers are not empty -/

theorem toDigitsCore_ne_nil (b fuel n : Nat) (ds : List Char) (h : ds ≠ [] ∨ 0 < fuel) :
    Nat.toDigitsCore b fuel n ds ≠ [] := by
  induction fuel generalizing n ds with
  | zero =>
    rcases h with h | h
    · simpa [Nat.toDigitsCore] using h
    · omega
  | succ f ih =>
    simp only [Nat.toDigitsCore]
    split
    · simp
    · exact ih _ _ (Or.inl (by simp))

theorem nat_repr_ne_empty (n : Nat) : Nat.repr n ≠ "" := by
  intro h
  have h1 : (Nat.repr n).data = [] := by rw [h]
  exact toDigitsCore_ne_nil 10 (n + 1) n [] (Or.inr (Nat.succ_pos n)) h1

theorem string_append_ne_empty (a b : String) (ha : a ≠ "") : a ++ b ≠ "" := by
  intro h
  apply ha
  have h1 : (a ++ b).data = [] := by rw [h]
  rw [String.data_append] at h1
  have h2 : a.data = [] := (List.append_eq_nil.mp h1).1
  exact String.ext h2

theorem numToString_ne_empty (n : JSNum) : numToString n ≠ "" := by
  cases n with
  | int i =>
    cases i with
    | ofNat m => exact nat_repr_ne_empty m
    | negSucc m =>
      show "-" ++ Nat.repr (Nat.succ m) ≠ ""
      exact string_append_ne_empty _ _ (by decide)
  | nan => decide
  | inf b => cases b <;> decide

theorem tooltip_prefix_ne (x : String) : "tooltip-" ++ ("tooltip-" ++ x) ≠ "tooltip-" ++ x := by
  intro h
  have h1 := congrArg String.length h
  simp only [String.length_append] at h1
  have h2 : "tooltip-".length = 8 := by decide
  omega

/-! ## `parseInt` on plain numerals and on strings that start with no number -/

theorem digit_not_space_or_sign (c : Char) (h : isDecimalDigit c = true) :
    isStrWhiteSpaceChar c = false ∧ c ≠ '-' ∧ c ≠ '+' := by
  simp only [isDecimalDigit, Bool.and_eq_true, decide_eq_true_eq] at h
  refine ⟨?_, ?_, ?_⟩
  · simp only [isStrWhiteSpaceChar, Bool.or_eq_false_iff, Bool.and_eq_false_iff,
      decide_eq_false_iff_not]
    omega
  · rintro rfl
    revert h
    decide
  · rintro rfl
    revert h
    decide

theorem parseInt10_of_digits (z : List Char) (hz : z ≠ [])
    (hall : ∀ c ∈ z, isDecimalDigit c = true) (hlt : digitsValue z < 2 ^ 53) :
    parseInt10 (String.mk z) = .int (digitsValue z) := by
  obtain ⟨c, rest, rfl⟩ := List.exists_cons_of_ne_nil hz
  obtain ⟨hws, hminus, hplus⟩ := digit_not_space_or_sign c (hall c (List.mem_cons_self c rest))
  have htake : List.takeWhile isDecimalDigit (c :: rest) = c :: rest :=
    List.takeWhile_eq_self_iff.mpr hall
  have hround : roundToDouble (digitsValue (c :: rest)) = some (digitsValue (c :: rest)) := by
    unfold roundToDouble
    rw [if_pos hlt]
  simp [parseInt10, List.dropWhile, hws, hminus, hplus, htake, hround]

theorem parseInt10_of_no_number (s : String)
    (h : ∀ c, s.toList.head? = some c →
      isDecimalDigit c = false ∧ isStrWhiteSpaceChar c = false ∧ c ≠ '-' ∧ c ≠ '+') :
    parseInt10 s = .nan := by
  unfold parseInt10
  cases hl : s.toList with
  | nil => simp
  | cons c rest =>
    obtain ⟨hd, hws, hminus, hplus⟩ := h c (by rw [hl]; rfl)
    simp [List.dropWhile, List.takeWhile, hws, hminus, hplus, hd]

/-! ## The claims on `parseTooltipOptions` -/

/-- C3, counterexample: `parseTooltipOptions` is not idempotent.  With
`typeClass: 'dark'` the first application gives `'tooltip-dark'` and the second
`'tooltip-tooltip-dark'` (line 112 prefixes every truthy `typeClass`). -/
theorem parseTooltipOptions_typeClass_prefixed_twice :
    (parseTooltipOptions { emptyOptions with typeClass := .str "dark" }).typeClass
        = .str "tooltip-dark" ∧
    (parseTooltipOptions (parseTooltipOptions
        { emptyOptions with typeClass := .str "dark" })).typeClass
        = .str "tooltip-tooltip-dark" ∧
    parseTooltipOptions (parseTooltipOptions { emptyOptions with typeClass := .str "dark" })
        ≠ parseTooltipOptions { emptyOptions with typeClass := .str "dark" } := by
  refine ⟨by decide, by decide, by decide⟩

/-- C3, amended: a second application of `parseTooltipOptions` changes no
property other than `typeClass` (`showOn`, `hideOn`, `duration`, `delay`,
`tabIndex`, `content`, `event`, `delayOnChange` and the untouched properties are
those of the first application); `typeClass` gets the prefix `'tooltip-'` once
more whenever it is truthy, so the two results are equal exactly for the options
whose `typeClass` is falsy. -/
theorem parseTooltipOptions_idempotent_but_typeClass (o : Options) :
    (parseTooltipOptions (parseTooltipOptions o)).showOn = (parseTooltipOptions o).showOn ∧
    (parseTooltipOptions (parseTooltipOptions o)).hideOn = (parseTooltipOptions o).hideOn ∧
    (parseTooltipOptions (parseTooltipOptions o)).duration
      = (parseTooltipOptions o).duration ∧
    (parseTooltipOptions (parseTooltipOptions o)).delay = (parseTooltipOptions o).delay ∧
    (parseTooltipOptions (parseTooltipOptions o)).tabIndex
      = (parseTooltipOptions o).tabIndex ∧
    (parseTooltipOptions (parseTooltipOptions o)).content = (parseTooltipOptions o).content ∧
    (parseTooltipOptions (parseTooltipOptions o)).event = (parseTooltipOptions o).event ∧
    (parseTooltipOptions (parseTooltipOptions o)).delayOnChange
      = (parseTooltipOptions o).delayOnChange ∧
    (parseTooltipOptions (parseTooltipOptions o)).others = (parseTooltipOptions o).others ∧
    (parseTooltipOptions (parseTooltipOptions o)).typeClass
      = (if truthy o.typeClass then
          .str ("tooltip-" ++ toStr (parseTooltipOptions o).typeClass)
         else (parseTooltipOptions o).typeClass) ∧
    (parseTooltipOptions (parseTooltipOptions o) = parseTooltipOptions o
      ↔ truthy o.typeClass = false) := by
  have hshow : (parseTooltipOptions (parseTooltipOptions o)).showOn
      = (parseTooltipOptions o).showOn := by
    simp only [parseTooltipOptions_eq]
    split_ifs <;> simp_all [truthy]
  have hhide : (parseTooltipOptions (parseTooltipOptions o)).hideOn
      = (parseTooltipOptions o).hideOn := by
    simp only [parseTooltipOptions_eq]
    split_ifs <;> simp_all [truthy]
  have hdur : (parseTooltipOptions (parseTooltipOptions o)).duration
      = (parseTooltipOptions o).duration := by
    simp only [parseTooltipOptions_eq]
    split_ifs <;> simp_all [truthy, isStringType]
  have hdel : (parseTooltipOptions (parseTooltipOptions o)).delay
      = (parseTooltipOptions o).delay := by
    simp only [parseTooltipOptions_eq]
    split_ifs <;> simp_all [truthy, isStringType]
  have htab : (parseTooltipOptions (parseTooltipOptions o)).tabIndex
      = (parseTooltipOptions o).tabIndex := by
    simp only [parseTooltipOptions_eq]
    by_cases hn : isNumberType o.tabIndex = true
    · have hne : toStr o.tabIndex ≠ "" := by
        cases ht : o.tabIndex <;> simp_all [isNumberType, toStr, numToString_ne_empty]
      simp only [if_pos hn]
      simp [isNumberType, truthy, hne]
    · by_cases ht : truthy o.tabIndex = true
      · simp only [if_neg hn, if_pos ht]
      · simp only [if_neg hn, if_neg ht]
        simp [isNumberType, truthy]
  have hcont : (parseTooltipOptions (parseTooltipOptions o)).content
      = (parseTooltipOptions o).content := by
    simp only [parseTooltipOptions_eq]
    split_ifs <;> simp_all [isHTMLSafe]
  have hev : (parseTooltipOptions (parseTooltipOptions o)).event
      = (parseTooltipOptions o).event := by
    simp only [parseTooltipOptions_eq]
  have hdoc : (parseTooltipOptions (parseTooltipOptions o)).delayOnChange
      = (parseTooltipOptions o).delayOnChange := by
    simp only [parseTooltipOptions_eq]
  have hoth : (parseTooltipOptions (parseTooltipOptions o)).others
      = (parseTooltipOptions o).others := by
    simp only [parseTooltipOptions_eq]
  have htc : (parseTooltipOptions (parseTooltipOptions o)).typeClass
      = (if truthy o.typeClass then
          .str ("tooltip-" ++ toStr (parseTooltipOptions o).typeClass)
         else (parseTooltipOptions o).typeClass) := by
    simp only [parseTooltipOptions_eq]
    by_cases ht : truthy o.typeClass = true
    · have hne : "tooltip-" ++ toStr o.typeClass ≠ "" :=
        string_append_ne_empty _ _ (by decide)
      have htr : truthy (.str ("tooltip-" ++ toStr o.typeClass)) = true := by
        simp [truthy, hne]
      simp only [if_pos ht, if_pos htr]
    · simp only [if_neg ht]
  refine ⟨hshow, hhide, hdur, hdel, htab, hcont, hev, hdoc, hoth, htc, ?_, ?_⟩
  · intro heq
    by_contra ht
    have ht1 : truthy o.typeClass = true := by simpa using ht
    have h1 := congrArg Options.typeClass heq
    rw [htc, if_pos ht1] at h1
    have h2 : (parseTooltipOptions o).typeClass = .str ("tooltip-" ++ toStr o.typeClass) := by
      simp only [parseTooltipOptions_eq, if_pos ht1]
    rw [h2] at h1
    simp only [toStr, JSVal.str.injEq] at h1
    exact tooltip_prefix_ne _ h1
  · intro ht
    have htc1 := htc
    rw [if_neg (by simp [ht])] at htc1
    exact Options.ext hcont hdur hev hhide hshow htab htc1 hdel hdoc hoth

/-- C4: with `showOn` and `hideOn` both unset (falsy), `parseTooltipOptions` returns
(`showOn`, `hideOn`) = ('mouseenter', 'mouseleave') for the event 'hover',
('focus', 'blur') for 'focus', ('ready', null) for 'ready' and (event, event) for
every other event; and a `showOn` or `hideOn` set to a non-empty string is
returned unchanged whatever the event. -/
theorem parseTooltipOptions_show_hide_events (o : Options) :
    (truthy o.showOn = false → truthy o.hideOn = false →
      ((parseTooltipOptions o).showOn, (parseTooltipOptions o).hideOn) =
        if o.event = .str "hover" then (.str "mouseenter", .str "mouseleave")
        else if o.event = .str "focus" then (.str "focus", .str "blur")
        else if o.event = .str "ready" then (.str "ready", .null)
        else (o.event, o.event)) ∧
    (∀ s : String, s ≠ "" → o.showOn = .str s → (parseTooltipOptions o).showOn = .str s) ∧
    (∀ s : String, s ≠ "" → o.hideOn = .str s → (parseTooltipOptions o).hideOn = .str s) := by
  refine ⟨?_, ?_, ?_⟩
  · intro hs hh
    simp only [parseTooltipOptions_eq, hs, hh]
    cases he : o.event with
    | str e =>
      by_cases h1 : e = "hover"
      · subst h1; simp [strictEq]
      · by_cases h2 : e = "focus"
        · subst h2; simp [strictEq]
        · by_cases h3 : e = "ready"
          · subst h3; simp [strictEq]
          · simp [strictEq, h1, h2, h3]
    | num n => cases n <;> simp [strictEq]
    | _ => simp [strictEq]
  · intro s hs h
    simp [parseTooltipOptions_eq, h, truthy, hs]
  · intro s hs h
    simp [parseTooltipOptions_eq, h, truthy, hs]

/-- C4, witness: the four event shorthands on options that set neither `showOn`
nor `hideOn`, and an explicit `showOn` kept under the event 'hover'. -/
theorem parseTooltipOptions_show_hide_events_witness :
    ((parseTooltipOptions { emptyOptions with event := .str "hover" }).showOn,
      (parseTooltipOptions { emptyOptions with event := .str "hover" }).hideOn)
        = (.str "mouseenter", .str "mouseleave") ∧
    ((parseTooltipOptions { emptyOptions with event := .str "click" }).showOn,
      (parseTooltipOptions { emptyOptions with event := .str "click" }).hideOn)
        = (.str "click", .str "click") ∧
    (parseTooltipOptions
      { emptyOptions with event := .str "hover", showOn := .str "click" }).showOn
        = .str "click" :=
  ⟨(parseTooltipOptions_show_hide_events { emptyOptions with event := .str "hover" }).1
      (by decide) (by decide),
   (parseTooltipOptions_show_hide_events { emptyOptions with event := .str "click" }).1
      (by decide) (by decide),
   (parseTooltipOptions_show_hide_events
      { emptyOptions with event := .str "hover", showOn := .str "click" }).2.1
      "click" (by decide) rfl⟩

/-- C5, counterexample: a string `duration` or `delay` can survive normalization as
a string, and a string that is no number can give a number.  The empty string
fails the test `duration && ...` of line 139 (`delay && ...` of line 151) and is
returned as it is, neither `null` nor `0`; `'12px'` gives `12`. -/
theorem parseTooltipOptions_empty_string_survives :
    (parseTooltipOptions { emptyOptions with duration := .str "" }).duration = .str "" ∧
    (parseTooltipOptions { emptyOptions with delay := .str "" }).delay = .str "" ∧
    (parseTooltipOptions { emptyOptions with duration := .str "12px" }).duration
      = .num (.int 12) := by
  refine ⟨by decide, by decide, by decide⟩

/-- C5, amended: for a `duration` that is a non-empty string `s` the result is
never a string: it is the number `parseInt(s, 10)`, or `null` when that is `NaN` or
infinite; for such a `delay` it is `parseInt(s, 10)`, or `0`.  `parseInt(s, 10)` is the
base-10 integer `s` denotes when `s` is a plain numeral below `2 ^ 53`, and `NaN` when
`s` starts with something that is no digit, sign or white space.  An empty-string
`duration` or `delay` is returned unchanged. -/
theorem parseTooltipOptions_numeric_strings (o : Options) (s : String) (hs : s ≠ "") :
    (o.duration = .str s →
      (parseTooltipOptions o).duration =
        (match parseInt10 s with
          | .int i => .num (.int i)
          | _ => .null) ∧
      isStringType (parseTooltipOptions o).duration = false) ∧
    (o.delay = .str s →
      (parseTooltipOptions o).delay =
        (match parseInt10 s with
          | .int i => .num (.int i)
          | _ => .num (.int 0)) ∧
      isStringType (parseTooltipOptions o).delay = false) ∧
    ((∀ c ∈ s.toList, isDecimalDigit c = true) → digitsValue s.toList < 2 ^ 53 →
      parseInt10 s = .int (digitsValue s.toList)) ∧
    ((∀ c, s.toList.head? = some c →
        isDecimalDigit c = false ∧ isStrWhiteSpaceChar c = false ∧ c ≠ '-' ∧ c ≠ '+') →
      parseInt10 s = .nan) ∧
    (o.duration = .str "" → (parseTooltipOptions o).duration = .str "") ∧
    (o.delay = .str "" → (parseTooltipOptions o).delay = .str "") := by
  have hne : (s != "") = true := by simpa using hs
  refine ⟨?_, ?_, ?_, parseInt10_of_no_number s, ?_, ?_⟩
  · intro h
    simp only [parseTooltipOptions_eq, h, truthy, isStringType, toStr, hne, Bool.and_self,
      if_true]
    cases parseInt10 s <;> simp [jsIsNaN, jsIsFinite, isStringType]
  · intro h
    simp only [parseTooltipOptions_eq, h, truthy, isStringType, toStr, hne, Bool.and_self,
      if_true]
    cases parseInt10 s <;> simp [jsIsNaN, jsIsFinite, isStringType]
  · intro hall hlt
    have hz : s.toList ≠ [] := by
      intro h0
      apply hs
      exact String.ext h0
    have := parseInt10_of_digits s.toList hz hall hlt
    simpa using this
  · intro h
    simp [parseTooltipOptions_eq, h, truthy]
  · intro h
    simp [parseTooltipOptions_eq, h, truthy]

/-- C5, witness: `"500"` gives `500`, `"abc"` gives `null`, `"200"` gives `200` and
`"xyz"` gives `0`. -/
theorem parseTooltipOptions_numeric_strings_witness :
    (parseTooltipOptions { emptyOptions with duration := .str "500" }).duration
      = .num (.int 500) ∧
    (parseTooltipOptions { emptyOptions with duration := .str "abc" }).duration = .null ∧
    (parseTooltipOptions { emptyOptions with delay := .str "200" }).delay
      = .num (.int 200) ∧
    (parseTooltipOptions { emptyOptions with delay := .str "xyz" }).delay
      = .num (.int 0) :=
  ⟨((parseTooltipOptions_numeric_strings { emptyOptions with duration := .str "500" }
      "500" (by decide)).1 rfl).1,
   ((parseTooltipOptions_numeric_strings { emptyOptions with duration := .str "abc" }
      "abc" (by decide)).1 rfl).1,
   ((parseTooltipOptions_numeric_strings { emptyOptions with delay := .str "200" }
      "200" (by decide)).2.1 rfl).1,
   ((parseTooltipOptions_numeric_strings { emptyOptions with delay := .str "xyz" }
      "xyz" (by decide)).2.1 rfl).1⟩

/-! ## The target assertion -/

theorem renderTooltip_error_iff (widget : Widget) (tooltipIndex now otherTooltips : Nat)
    (domElement : Target) (options : Option Options) (context : Option Context) :
    renderTooltip widget tooltipIndex now otherTooltips domElement options context
        = .error invalidTargetMessage
      ↔ targetTest domElement = false := by
  unfold renderTooltip emberAssert
  cases h : targetTest domElement <;> simp

/-- C2, counterexample: `renderTooltip(null)` and `renderTooltip(undefined)` do not
raise the assertion error; the test of line 21 starts with `!domElement ||`. -/
theorem renderTooltip_accepts_falsy_target :
    (∃ r, renderTooltip numericWidget 1 0 0 (.plain .null) none none = .ok r) ∧
    (∃ r, renderTooltip numericWidget 1 0 0 (.plain .undefined) none none = .ok r) :=
  ⟨⟨_, rfl⟩, ⟨_, rfl⟩⟩

/-- C2, amended: `renderTooltip` fails with the invalid-target assertion error exactly when
its first argument is truthy and has no truthy `tagName`: so for every object without a
`tagName` (and every truthy primitive), not for an element with a non-empty `tagName`,
and not for a falsy first argument such as `null` or `undefined`. -/
theorem renderTooltip_invalid_target (widget : Widget) (tooltipIndex now otherTooltips : Nat)
    (options : Option Options) (context : Option Context) :
    (∀ domElement : Target,
      renderTooltip widget tooltipIndex now otherTooltips domElement options context
          = .error invalidTargetMessage
        ↔ (domElement.truthy = true ∧ truthy domElement.tagName = false)) ∧
    (∀ ref : Nat,
      renderTooltip widget tooltipIndex now otherTooltips (.plain (.obj ref)) options context
        = .error invalidTargetMessage) ∧
    (renderTooltip widget tooltipIndex now otherTooltips (.node .undefined) options context
        = .error invalidTargetMessage) ∧
    (∀ tag : String, tag ≠ "" →
      ∃ r, renderTooltip widget tooltipIndex now otherTooltips (.node (.str tag)) options
        context = .ok r) ∧
    (∀ v : JSVal, truthy v = false →
      ∃ r, renderTooltip widget tooltipIndex now otherTooltips (.plain v) options
        context = .ok r) := by
  have key : ∀ domElement : Target,
      renderTooltip widget tooltipIndex now otherTooltips domElement options context
          = .error invalidTargetMessage
        ↔ (domElement.truthy = true ∧ truthy domElement.tagName = false) := by
    intro d
    rw [renderTooltip_error_iff]
    unfold targetTest
    cases d.truthy <;> cases truthy d.tagName <;> simp
  refine ⟨key, ?_, ?_, ?_, ?_⟩
  · intro ref
    exact (key _).mpr ⟨rfl, rfl⟩
  · exact (key _).mpr ⟨rfl, rfl⟩
  · intro tag htag
    have ht : targetTest (.node (.str tag)) = true := by
      simp [targetTest, Target.truthy, Target.tagName, truthy, htag]
    simp [renderTooltip, emberAssert, ht]
  · intro v hv
    have ht : targetTest (.plain v) = true := by
      simp [targetTest, Target.truthy, hv]
    simp [renderTooltip, emberAssert, ht]

/-- C2, witness: a `<div>` is accepted, and so is `null`. -/
theorem renderTooltip_invalid_target_witness :
    (∃ r, renderTooltip numericWidget 1 0 0 (.node (.str "DIV")) none none = .ok r) ∧
    (∃ r, renderTooltip numericWidget 1 0 0 (.plain .null) none none = .ok r) :=
  ⟨(renderTooltip_invalid_target numericWidget 1 0 0 none none).2.2.2.1 "DIV" (by decide),
   (renderTooltip_invalid_target numericWidget 1 0 0 none none).2.2.2.2 .null rfl⟩

/-! ## Runs of the scenarios -/

/-- C1: the auto-hide timer hides the tooltip and leaves `aria-describedby` on the
target.  `renderTooltip(div, { event: 'hover', duration: 500 }, context)` with a live
host; the pointer enters at 0 ms; at 150 ms the tooltip is shown and the target has
`aria-describedby="tooltip-1"`; at 650 ms the timer of line 80 calls `tooltip.hide()`,
and the tooltip is hidden while the target still has the attribute, the tooltip
element still has `aria-hidden="true"` and the host's flag is still `true`. -/
theorem autoHide_leaves_describedBy :
    ∃ r, renderTooltip numericWidget 1 0 0 divElement (some autoHideOptions)
          (some liveContext) = .ok r ∧
      runOnTime r.cfg autoHideRun r.state = true ∧
      isShown (run r.cfg showRun r.state) = true ∧
      (run r.cfg showRun r.state).describedBy = some "tooltip-1" ∧
      (run r.cfg showRun r.state).timers = [{ id := 2, kind := .hide, due := 650 }] ∧
      (run r.cfg autoHideRun r.state).now = 650 ∧
      (run r.cfg autoHideRun r.state).timers = [] ∧
      isShown (run r.cfg autoHideRun r.state) = false ∧
      (run r.cfg autoHideRun r.state).describedBy = some "tooltip-1" ∧
      (run r.cfg autoHideRun r.state).ariaHidden = some "true" ∧
      (run r.cfg autoHideRun r.state).context
        = some { liveContext with tooltipVisibility := .bool true } := by
  refine ⟨_, rfl, ?_, ?_, ?_, ?_, ?_, ?_, ?_, ?_, ?_, ?_⟩ <;> decide

/-! ## Every call of `setTooltipVisibility` gets a timer of its own -/

theorem debouncees_fresh_step (cfg : Config) (a : Action) (s : State)
    (h : ∀ d ∈ s.debouncees, d.method < s.nextFunction) :
    ∀ d ∈ (step cfg a s).debouncees, d.method < (step cfg a s).nextFunction := by
  have hset : ∀ b, ∀ d ∈ (setTooltipVisibility b s).debouncees,
      d.method < (setTooltipVisibility b s).nextFunction := by
    intro b d hd
    simp only [setTooltipVisibility, runDebounce, runLater] at hd ⊢
    split at hd <;> simp at hd ⊢
    · rcases hd with ⟨hd, _⟩ | rfl
      · exact Nat.lt_succ_of_lt (h d hd)
      · simp
    · rcases hd with hd | rfl
      · exact Nat.lt_succ_of_lt (h d hd)
      · simp
  have hbody : ∀ b (u : State), (visibilityBody cfg b u).debouncees = u.debouncees ∧
      (visibilityBody cfg b u).nextFunction = u.nextFunction := by
    intro b u
    unfold visibilityBody
    simp only [runCancel, runLater, tooltipHide, contextSet]
    repeat' split
    all_goals simp
  have hdelay : ∀ (u : State), (delayCallback cfg u).debouncees = u.debouncees ∧
      (delayCallback cfg u).nextFunction = u.nextFunction := by
    intro u
    unfold delayCallback
    simp only [runLater, tooltipShow, contextSet]
    repeat' split
    all_goals simp
  cases a with
  | dom l which =>
    simp only [step]
    split
    · cases l <;> simp only [runListener]
      all_goals first
        | exact hset _
        | (split
           · exact hset _
           · exact h)
    · exact h
  | fire id =>
    simp only [step]
    split
    · rename_i t _
      simp only [fireTimer]
      cases t.kind with
      | debounce b =>
        intro d hd
        simp only [List.mem_filter] at hd
        rw [(hbody b _).1] at hd
        simp only [(hbody b _).2]
        exact h d hd.1
      | delay =>
        intro d hd
        simp only [(hdelay _).1] at hd
        simp only [(hdelay _).2]
        exact h d hd
      | hide =>
        intro d hd
        exact h d hd
    · exact h
  | elapse ms => exact h
  | host a b =>
    simp only [step]
    split <;> exact h
  | tooltips n => exact h

theorem debouncees_fresh_run (cfg : Config) (actions : List Action) (s : State)
    (h : ∀ d ∈ s.debouncees, d.method < s.nextFunction) :
    ∀ d ∈ (run cfg actions s).debouncees, d.method < (run cfg actions s).nextFunction := by
  induction actions generalizing s with
  | nil => exact h
  | cons a rest ih => exact ih (step cfg a s) (debouncees_fresh_step cfg a s h)

theorem setTooltipVisibility_timers (b : Bool) (s : State)
    (h : ∀ d ∈ s.debouncees, d.method < s.nextFunction) :
    (setTooltipVisibility b s).timers
      = s.timers ++ [{ id := s.nextTimer, kind := .debounce b, due := s.now + 150 }] := by
  have hnone : s.debouncees.find? (fun d => d.method == s.nextFunction) = none := by
    rw [List.find?_eq_none]
    intro d hd
    have := h d hd
    simp only [beq_iff_eq]
    omega
  simp [setTooltipVisibility, runDebounce, runLater, hnone]

/-- C7: no call of `setTooltipVisibility` resets the timer of an earlier call.  In
every state a run reaches from a new tooltip, a call leaves all pending timers
pending and adds one that runs the visibility logic 150 ms later with its own
argument (`run.debounce` finds no debouncee registered with the function object
line 40 has just made).  So for two calls 10 ms apart, `showOn` at 0 ms and `hideOn`
at 10 ms, the logic runs twice, at 150 ms with `true` and at 160 ms with `false`, and
the earlier request is applied: the tooltip is shown at 150 ms. -/
theorem setTooltipVisibility_never_resets :
    (∀ (widget : Widget) (context : Option Context) (now otherTooltips : Nat)
        (cfg : Config) (actions : List Action) (shouldShow : Bool),
      (setTooltipVisibility shouldShow
          (run cfg actions (initialState widget context now otherTooltips))).timers
        = (run cfg actions (initialState widget context now otherTooltips)).timers ++
          [{ id := (run cfg actions (initialState widget context now otherTooltips)).nextTimer,
             kind := .debounce shouldShow,
             due := (run cfg actions (initialState widget context now otherTooltips)).now
                      + 150 }]) ∧
    (∃ r, renderTooltip numericWidget 1 0 0 divElement (some autoHideOptions)
          (some liveContext) = .ok r ∧
      runOnTime r.cfg rapidRun r.state = true ∧
      (run r.cfg (rapidRun.take 3) r.state).timers =
        [{ id := 0, kind := .debounce true, due := 150 },
         { id := 1, kind := .debounce false, due := 160 }] ∧
      isShown (run r.cfg (rapidRun.take 6) r.state) = true ∧
      (run r.cfg rapidRun r.state).bodyRuns = [(160, false), (150, true)] ∧
      (run r.cfg rapidRun r.state).showCalls = 1 ∧
      (run r.cfg rapidRun r.state).hideCalls = 1) := by
  refine ⟨?_, ⟨_, rfl, ?_, ?_, ?_, ?_, ?_, ?_⟩⟩
  · intro widget context now otherTooltips cfg actions shouldShow
    apply setTooltipVisibility_timers
    apply debouncees_fresh_run
    intro d hd
    simp [initialState] at hd
  all_goals decide

/-! ## The debounced function in the state it is asked for -/

theorem strictEq_bool_truthy (v : JSVal) (b : Bool) (h : strictEq v (.bool b) = true) :
    truthy v = b := by
  cases v with
  | bool c =>
    simp only [strictEq, decide_eq_true_eq, JSVal.bool.injEq] at h
    simp [truthy, h]
  | num n => cases n <;> simp [strictEq] at h
  | _ => simp [strictEq] at h

theorem visibilityBody_show_path (cfg : Config) (s : State)
    (hne : strictEq s.hidden (.bool true) = false)
    (hlive : ∀ c, s.context = some c → c.isDestroying = false) :
    (visibilityBody cfg true s).timers
        = (runCancel s.hideTimer (runCancel s.delayTimer s)).timers ++
          [{ id := s.nextTimer, kind := .delay,
             due := s.now + waitOf (showTooltipDelay cfg s) }] ∧
      (visibilityBody cfg true s).delayTimer = some s.nextTimer := by
  have hctx : (match s.context with
      | some c => c.isDestroying
      | none => false) = false := by
    cases hc : s.context with
    | none => rfl
    | some c => exact hlive c hc
  cases hdt : s.delayTimer <;> cases hht : s.hideTimer <;>
    simp [visibilityBody, runCancel, runLater, showTooltipDelay, tooltipElements, hne, hctx,
      hdt, hht]

/-- C8: the debounced function does not stop when the tooltip is in the state it is
asked for.  The test of line 47 is `tooltip.hidden === shouldShow`, which no tooltip
in the requested state passes (a shown tooltip has a falsy `hidden`, a hidden one a
truthy `hidden`): with a live host, a request to show a shown tooltip cancels the
pending auto-hide timer and sets a new show timer, and a request to hide a hidden
tooltip calls `tooltip.hide()` and writes the attributes.  So after `showRun`, with
the auto-hide timer pending and due at 650 ms, a `focusin` at 200 ms makes the
function run at 350 ms: the auto-hide timer is gone and a show timer is pending. -/
theorem visibilityBody_runs_in_requested_state :
    (∀ (cfg : Config) (s : State),
      isShown s = true → (∀ c, s.context = some c → c.isDestroying = false) →
      (visibilityBody cfg true s).timers
          = (runCancel s.hideTimer (runCancel s.delayTimer s)).timers ++
            [{ id := s.nextTimer, kind := .delay,
               due := s.now + waitOf (showTooltipDelay cfg s) }] ∧
        (visibilityBody cfg true s).delayTimer = some s.nextTimer) ∧
    (∀ (cfg : Config) (s : State),
      isShown s = false → (∀ c, s.context = some c → c.isDestroying = false) →
      (visibilityBody cfg false s).hideCalls = s.hideCalls + 1 ∧
        (visibilityBody cfg false s).ariaHidden = some "false" ∧
        (visibilityBody cfg false s).timers
          = (runCancel s.hideTimer (runCancel s.delayTimer s)).timers) ∧
    (∃ r, renderTooltip numericWidget 1 0 0 divElement (some autoHideOptions)
          (some liveContext) = .ok r ∧
      runOnTime r.cfg showAgainRun r.state = true ∧
      isShown (run r.cfg (showAgainRun.take 7) r.state) = true ∧
      (run r.cfg (showAgainRun.take 7) r.state).timers
        = [{ id := 2, kind := .hide, due := 650 },
           { id := 3, kind := .debounce true, due := 350 }] ∧
      (run r.cfg showAgainRun r.state).bodyRuns = [(350, true), (150, true)] ∧
      (run r.cfg showAgainRun r.state).timers = [{ id := 4, kind := .delay, due := 350 }] ∧
      isPending (some 2) (run r.cfg showAgainRun r.state) = false) := by
  refine ⟨?_, ?_, ⟨_, rfl, ?_, ?_, ?_, ?_, ?_, ?_⟩⟩
  · intro cfg s hshown hlive
    have hne : strictEq s.hidden (.bool true) = false := by
      cases h : strictEq s.hidden (.bool true)
      · rfl
      · have := strictEq_bool_truthy _ _ h
        simp [isShown, this] at hshown
    exact visibilityBody_show_path cfg s hne hlive
  · intro cfg s hshown hlive
    have hne : strictEq s.hidden (.bool false) = false := by
      cases h : strictEq s.hidden (.bool false)
      · rfl
      · have := strictEq_bool_truthy _ _ h
        simp [isShown, this] at hshown
    cases hc : s.context with
    | none =>
      cases hdt : s.delayTimer <;> cases hht : s.hideTimer <;>
        simp [visibilityBody, runCancel, tooltipHide, contextSet, hne, hdt, hht, hc]
    | some c =>
      have hl := hlive c hc
      cases hdt : s.delayTimer <;> cases hht : s.hideTimer <;>
        simp [visibilityBody, runCancel, tooltipHide, contextSet, hne, hdt, hht, hc, hl]
  all_goals decide

/-! ## Timers that fire after the host is gone -/

/-- C9, counterexample: the auto-hide timer is not a no-op once the host is destroying.
After `showRun` the tooltip is shown (`hidden` is `0`); the host starts being destroyed
at 400 ms; the auto-hide timer fires at 650 ms and `hidden` is `1`. -/
theorem autoHide_fires_after_destruction :
    ∃ r, renderTooltip numericWidget 1 0 0 divElement (some autoHideOptions)
          (some liveContext) = .ok r ∧
      runOnTime r.cfg destroyedRun r.state = true ∧
      (run r.cfg (destroyedRun.take 7) r.state).context
        = some { isDestroying := true, isDestroyed := false, tooltipVisibility := .bool true } ∧
      (run r.cfg (destroyedRun.take 7) r.state).hidden = .num (.int 0) ∧
      (run r.cfg (destroyedRun.take 7) r.state).timers
        = [{ id := 2, kind := .hide, due := 650 }] ∧
      (run r.cfg destroyedRun r.state).hidden = .num (.int 1) ∧
      (run r.cfg destroyedRun r.state).hideCalls = 1 := by
  refine ⟨_, rfl, ?_, ?_, ?_, ?_, ?_, ?_⟩ <;> decide

/-- C9, amended: once the host is destroying or destroyed, the delay (show) timer that
fires afterwards is a no-op: `hidden`, the `aria-hidden` of the tooltip, the
`aria-describedby` of the target and the host with its `tooltipVisibility` flag are
unchanged, `show()` is not called and no timer is set.  The auto-hide timer is not
guarded: it calls `tooltip.hide()`, so `hidden` gets the widget's hidden value, and it
leaves the two attributes and the host unchanged. -/
theorem timers_after_destruction (cfg : Config) (t : Timer) (s : State) (c : Context)
    (hc : s.context = some c) (hd : c.isDestroying = true ∨ c.isDestroyed = true) :
    (t.kind = .delay →
      (fireTimer cfg t s).hidden = s.hidden ∧
      (fireTimer cfg t s).ariaHidden = s.ariaHidden ∧
      (fireTimer cfg t s).describedBy = s.describedBy ∧
      (fireTimer cfg t s).context = s.context ∧
      (fireTimer cfg t s).showCalls = s.showCalls ∧
      (fireTimer cfg t s).hideCalls = s.hideCalls ∧
      (fireTimer cfg t s).hideTimer = s.hideTimer ∧
      (fireTimer cfg t s).timers = s.timers.filter (fun u => u.id != t.id)) ∧
    (t.kind = .hide →
      (fireTimer cfg t s).hidden = cfg.widget.hiddenValue ∧
      (fireTimer cfg t s).hideCalls = s.hideCalls + 1 ∧
      (fireTimer cfg t s).ariaHidden = s.ariaHidden ∧
      (fireTimer cfg t s).describedBy = s.describedBy ∧
      (fireTimer cfg t s).context = s.context ∧
      (fireTimer cfg t s).timers = s.timers.filter (fun u => u.id != t.id)) := by
  have hflags : (c.isDestroying || c.isDestroyed) = true := by
    rcases hd with h | h <;> simp [h]
  constructor
  · intro hk
    simp [fireTimer, hk, delayCallback, hc, hflags]
  · intro hk
    simp [fireTimer, hk, tooltipHide, hc]

/-- C9, witness: the state `destroyedRun` reaches before its last action, where the host
is destroying and the auto-hide timer is pending, and that timer: the tooltip gets
hidden and the target keeps `aria-describedby`.  And the state `destroyedBeforeShowRun`
reaches before its last action, where the host is destroying and the show timer is
pending, and that timer: the tooltip stays hidden and `show()` is not called. -/
theorem timers_after_destruction_witness :
    (∃ r, renderTooltip numericWidget 1 0 0 divElement (some autoHideOptions)
          (some liveContext) = .ok r ∧
      (fireTimer r.cfg { id := 2, kind := .hide, due := 650 }
          (run r.cfg (destroyedRun.take 7) r.state)).describedBy = some "tooltip-1" ∧
      (fireTimer r.cfg { id := 2, kind := .hide, due := 650 }
          (run r.cfg (destroyedRun.take 7) r.state)).hidden = .num (.int 1)) ∧
    (∃ r, renderTooltip numericWidget 1 0 0 divElement (some delayOptions)
          (some liveContext) = .ok r ∧
      (run r.cfg (destroyedBeforeShowRun.take 6) r.state).timers
        = [{ id := 1, kind := .delay, due := 1150 }] ∧
      (fireTimer r.cfg { id := 1, kind := .delay, due := 1150 }
          (run r.cfg (destroyedBeforeShowRun.take 6) r.state)).hidden = .num (.int 1) ∧
      (fireTimer r.cfg { id := 1, kind := .delay, due := 1150 }
          (run r.cfg (destroyedBeforeShowRun.take 6) r.state)).showCalls = 0) := by
  refine ⟨⟨_, rfl, ?_, ?_⟩, ⟨_, rfl, by decide, ?_, ?_⟩⟩
  · exact ((timers_after_destruction _ { id := 2, kind := .hide, due := 650 }
      (run _ (destroyedRun.take 7) _)
      { isDestroying := true, isDestroyed := false, tooltipVisibility := .bool true }
      (by decide) (Or.inl rfl)).2 (by rfl)).2.2.2.1.trans (by decide)
  · exact ((timers_after_destruction _ { id := 2, kind := .hide, due := 650 }
      (run _ (destroyedRun.take 7) _)
      { isDestroying := true, isDestroyed := false, tooltipVisibility := .bool true }
      (by decide) (Or.inl rfl)).2 (by rfl)).1
  · exact ((timers_after_destruction _ { id := 1, kind := .delay, due := 1150 }
      (run _ (destroyedBeforeShowRun.take 6) _)
      { isDestroying := true, isDestroyed := false, tooltipVisibility := .undefined }
      (by decide) (Or.inl rfl)).1 (by rfl)).1.trans (by decide)
  · exact ((timers_after_destruction _ { id := 1, kind := .delay, due := 1150 }
      (run _ (destroyedBeforeShowRun.take 6) _)
      { isDestroying := true, isDestroyed := false, tooltipVisibility := .undefined }
      (by decide) (Or.inl rfl)).1 (by rfl)).2.2.2.2.1.trans (by decide)

/-! ## What the functions do to the timers -/

theorem runCancel_timers (h : Option Nat) (s : State) :
    (runCancel h s).timers = s.timers.filter (fun t => some t.id != h) := by
  cases h with
  | none =>
    simp only [runCancel]
    symm
    exact List.filter_eq_self.mpr (fun a _ => by simp)
  | some h =>
    simp only [runCancel]
    apply List.filter_congr
    intro t _
    simp [bne]

theorem runCancel_fields (h : Option Nat) (s : State) :
    (runCancel h s).now = s.now ∧ (runCancel h s).hidden = s.hidden ∧
    (runCancel h s).context = s.context ∧ (runCancel h s).delayTimer = s.delayTimer ∧
    (runCancel h s).hideTimer = s.hideTimer ∧ (runCancel h s).nextTimer = s.nextTimer ∧
    (runCancel h s).otherTooltips = s.otherTooltips ∧
    (runCancel h s).inDocument = s.inDocument ∧
    (runCancel h s).showCalls = s.showCalls ∧ (runCancel h s).hideCalls = s.hideCalls := by
  cases h <;> simp [runCancel]

theorem setTooltipVisibility_effect (b : Bool) (s : State) :
    (∃ ts, (setTooltipVisibility b s).timers
        = ts ++ [{ id := s.nextTimer, kind := .debounce b, due := s.now + 150 }] ∧
      ts.Sublist s.timers) ∧
    (setTooltipVisibility b s).nextTimer = s.nextTimer + 1 ∧
    (setTooltipVisibility b s).delayTimer = s.delayTimer ∧
    (setTooltipVisibility b s).hideTimer = s.hideTimer ∧
    (setTooltipVisibility b s).now = s.now ∧
    (setTooltipVisibility b s).hidden = s.hidden ∧
    (setTooltipVisibility b s).showCalls = s.showCalls ∧
    (setTooltipVisibility b s).otherTooltips = s.otherTooltips ∧
    (setTooltipVisibility b s).inDocument = s.inDocument := by
  simp only [setTooltipVisibility, runDebounce, runLater]
  split
  · exact ⟨⟨_, rfl, List.filter_sublist _⟩, rfl, rfl, rfl, rfl, rfl, rfl, rfl, rfl⟩
  · exact ⟨⟨_, rfl, List.Sublist.refl _⟩, rfl, rfl, rfl, rfl, rfl, rfl, rfl, rfl⟩

theorem visibilityBody_effect (cfg : Config) (b : Bool) (s : State) :
    (visibilityBody cfg b s).now = s.now ∧
    (visibilityBody cfg b s).showCalls = s.showCalls ∧
    (visibilityBody cfg b s).otherTooltips = s.otherTooltips ∧
    (visibilityBody cfg b s).hideTimer = s.hideTimer ∧
    (((visibilityBody cfg b s).hidden = s.hidden ∧
        (visibilityBody cfg b s).inDocument = s.inDocument) ∨
      ((visibilityBody cfg b s).hidden = cfg.widget.hiddenValue ∧
        (visibilityBody cfg b s).inDocument = false)) ∧
    (((visibilityBody cfg b s).timers.Sublist s.timers ∧
        (visibilityBody cfg b s).nextTimer = s.nextTimer ∧
        (visibilityBody cfg b s).delayTimer = s.delayTimer ∧
        (∀ t ∈ (visibilityBody cfg b s).timers, some t.id ≠ s.delayTimer)) ∨
     (∃ ts, (visibilityBody cfg b s).timers
          = ts ++ [{ id := s.nextTimer, kind := .delay,
                     due := s.now + waitOf (showTooltipDelay cfg s) }] ∧
        ts.Sublist s.timers ∧
        (∀ t ∈ ts, some t.id ≠ s.delayTimer ∧ some t.id ≠ s.hideTimer) ∧
        (visibilityBody cfg b s).nextTimer = s.nextTimer + 1 ∧
        (visibilityBody cfg b s).delayTimer = some s.nextTimer ∧
        (visibilityBody cfg b s).hidden = s.hidden)) := by
  have hsub1 : (s.timers.filter (fun t => some t.id != s.delayTimer)).Sublist s.timers :=
    List.filter_sublist _
  have hne1 : ∀ t ∈ s.timers.filter (fun t => some t.id != s.delayTimer),
      some t.id ≠ s.delayTimer := by
    intro t ht
    simpa using (List.mem_filter.mp ht).2
  have hsub2 : ((s.timers.filter (fun t => some t.id != s.delayTimer)).filter
      (fun t => some t.id != s.hideTimer)).Sublist s.timers :=
    (List.filter_sublist _).trans hsub1
  have hne2 : ∀ t ∈ (s.timers.filter (fun t => some t.id != s.delayTimer)).filter
      (fun t => some t.id != s.hideTimer),
      some t.id ≠ s.delayTimer ∧ some t.id ≠ s.hideTimer := by
    intro t ht
    have h2 := List.mem_filter.mp ht
    exact ⟨hne1 t h2.1, by simpa using h2.2⟩
  have hcs : ∀ (v : Bool) (u : State),
      (contextSet v u).timers = u.timers ∧ (contextSet v u).now = u.now ∧
      (contextSet v u).showCalls = u.showCalls ∧
      (contextSet v u).otherTooltips = u.otherTooltips ∧
      (contextSet v u).inDocument = u.inDocument ∧
      (contextSet v u).hideTimer = u.hideTimer ∧
      (contextSet v u).delayTimer = u.delayTimer ∧
      (contextSet v u).nextTimer = u.nextTimer ∧
      (contextSet v u).hidden = u.hidden := by
    intro v u
    unfold contextSet
    split <;> simp
  unfold visibilityBody
  simp only []
  split
  · refine ⟨?_, ?_, ?_, ?_, Or.inl ⟨?_, ?_⟩, Or.inl ⟨?_, ?_, ?_, ?_⟩⟩ <;>
      (try simp only [runCancel_timers, runCancel_fields]) <;>
      first | rfl | exact hsub1 | exact hne1
  · split
    · refine ⟨?_, ?_, ?_, ?_, Or.inl ⟨?_, ?_⟩, Or.inl ⟨?_, ?_, ?_, ?_⟩⟩ <;>
        (try simp only [runCancel_timers, runCancel_fields]) <;>
        first | rfl | exact hsub1 | exact hne1
    · split
      · refine ⟨?_, ?_, ?_, ?_, Or.inl ⟨?_, ?_⟩, Or.inr ⟨_, ?_, hsub2, hne2, ?_, ?_, ?_⟩⟩ <;>
          simp only [runLater, showTooltipDelay, tooltipElements, runCancel_timers,
            runCancel_fields]
      · refine ⟨?_, ?_, ?_, ?_, Or.inr ⟨?_, ?_⟩, Or.inl ⟨?_, ?_, ?_, ?_⟩⟩ <;>
          (try simp only [hcs, tooltipHide, runCancel_timers, runCancel_fields]) <;>
          first | rfl | exact hsub2 | exact (fun t ht => (hne2 t ht).1)

theorem delayCallback_effect (cfg : Config) (s : State) :
    (delayCallback cfg s).now = s.now ∧
    (delayCallback cfg s).otherTooltips = s.otherTooltips ∧
    (delayCallback cfg s).delayTimer = s.delayTimer ∧
    (((delayCallback cfg s).timers = s.timers ∧
        (delayCallback cfg s).nextTimer = s.nextTimer ∧
        (delayCallback cfg s).hideTimer = s.hideTimer) ∨
     ((delayCallback cfg s).timers
          = s.timers ++ [{ id := s.nextTimer, kind := .hide,
                           due := s.now + waitOf cfg.options.duration }] ∧
        (delayCallback cfg s).nextTimer = s.nextTimer + 1 ∧
        (delayCallback cfg s).hideTimer = some s.nextTimer)) := by
  unfold delayCallback
  cases hc : s.context with
  | none => exact ⟨rfl, rfl, rfl, Or.inl ⟨rfl, rfl, rfl⟩⟩
  | some c =>
    simp only []
    split
    · exact ⟨rfl, rfl, rfl, Or.inl ⟨rfl, rfl, rfl⟩⟩
    · split
      · refine ⟨?_, ?_, ?_, Or.inr ⟨?_, ?_, ?_⟩⟩ <;>
          simp [runLater, contextSet, tooltipShow, hc]
      · refine ⟨?_, ?_, ?_, Or.inl ⟨?_, ?_, ?_⟩⟩ <;>
          simp [contextSet, tooltipShow, hc]

/-! ## The invariant on show and auto-hide timers holds in every run -/

theorem isPending_eq_false_iff (h : Option Nat) (s : State) :
    isPending h s = false ↔ ∀ u ∈ s.timers, some u.id ≠ h := by
  simp [isPending, List.any_eq_false]

theorem filter_kind_nil_append (k : TimerKind) (ts : List Timer) (new : Timer)
    (h : ∀ t ∈ ts, t.kind ≠ k) :
    ((ts ++ [new]).filter (fun t => t.kind == k)).length ≤ 1 := by
  have h0 : ts.filter (fun t => t.kind == k) = [] := by
    rw [List.filter_eq_nil_iff]
    intro t ht
    simpa using h t ht
  rw [List.filter_append, h0]
  simpa using List.length_filter_le _ [new]

theorem filter_kind_append_other (k : TimerKind) (ts : List Timer) (new : Timer)
    (h : new.kind ≠ k) :
    (ts ++ [new]).filter (fun t => t.kind == k) = ts.filter (fun t => t.kind == k) := by
  rw [List.filter_append]
  have : [new].filter (fun t => t.kind == k) = [] := by
    simp [List.filter_cons, h]
  rw [this, List.append_nil]

theorem StepOk_shrink {s r : State} (h : TimersOk s) (hsub : r.timers.Sublist s.timers)
    (hn : r.nextTimer = s.nextTimer) (hd : r.delayTimer = s.delayTimer)
    (hh : r.hideTimer = s.hideTimer) : StepOk s r := by
  have hmem : ∀ t ∈ r.timers, t ∈ s.timers := fun t ht => hsub.subset ht
  refine ⟨⟨?_, ?_, ?_, ?_, ?_, ?_, ?_, ?_, ?_⟩, ?_, ?_⟩
  · intro t ht; rw [hn]; exact h.fresh t (hmem t ht)
  · intro x hx; rw [hn]; exact h.delayFresh x (hd ▸ hx)
  · intro x hx; rw [hn]; exact h.hideFresh x (hh ▸ hx)
  · intro t ht hk; rw [hd]; exact h.delayStored t (hmem t ht) hk
  · intro t ht hk; rw [hh]; exact h.hideStored t (hmem t ht) hk
  · intro t ht hk; exact h.hideKind t (hmem t ht) (hh ▸ hk)
  · intro t ht hk u hu; exact h.exclusive t (hmem t ht) hk u (hmem u hu)
  · exact Nat.le_trans (hsub.filter _).length_le h.oneDelay
  · exact Nat.le_trans (hsub.filter _).length_le h.oneHide
  · intro t ht hnot; exact absurd (hmem t ht) hnot
  · intro t ht hnot; exact absurd (hmem t ht) hnot

theorem StepOk_addDebounce {s r : State} (h : TimersOk s) (ts : List Timer) (b : Bool)
    (due : Nat) (ht : r.timers = ts ++ [{ id := s.nextTimer, kind := .debounce b, due := due }])
    (hsub : ts.Sublist s.timers) (hn : r.nextTimer = s.nextTimer + 1)
    (hd : r.delayTimer = s.delayTimer) (hh : r.hideTimer = s.hideTimer) : StepOk s r := by
  have hmem : ∀ t ∈ r.timers, t ∈ s.timers ∨
      t = { id := s.nextTimer, kind := .debounce b, due := due } := by
    intro t htm
    rw [ht] at htm
    rcases List.mem_append.mp htm with h1 | h1
    · exact Or.inl (hsub.subset h1)
    · exact Or.inr (by simpa using h1)
  refine ⟨⟨?_, ?_, ?_, ?_, ?_, ?_, ?_, ?_, ?_⟩, ?_, ?_⟩
  · intro t htm
    rw [hn]
    rcases hmem t htm with h1 | rfl
    · exact Nat.lt_succ_of_lt (h.fresh t h1)
    · exact Nat.lt_succ_self _
  · intro x hx; rw [hn]; exact Nat.lt_succ_of_lt (h.delayFresh x (hd ▸ hx))
  · intro x hx; rw [hn]; exact Nat.lt_succ_of_lt (h.hideFresh x (hh ▸ hx))
  · intro t htm hk
    rcases hmem t htm with h1 | rfl
    · rw [hd]; exact h.delayStored t h1 hk
    · cases hk
  · intro t htm hk
    rcases hmem t htm with h1 | rfl
    · rw [hh]; exact h.hideStored t h1 hk
    · cases hk
  · intro t htm hk
    rcases hmem t htm with h1 | rfl
    · exact h.hideKind t h1 (hh ▸ hk)
    · rw [hh] at hk
      have := h.hideFresh _ hk
      simp at this
  · intro t htm hk u hu
    rcases hmem t htm with h1 | rfl
    · rcases hmem u hu with h2 | rfl
      · exact h.exclusive t h1 hk u h2
      · simp
    · cases hk
  · show (r.timers.filter _).length ≤ 1
    rw [ht, filter_kind_append_other _ _ _ (by simp)]
    exact Nat.le_trans (hsub.filter _).length_le h.oneDelay
  · show (r.timers.filter _).length ≤ 1
    rw [ht, filter_kind_append_other _ _ _ (by simp)]
    exact Nat.le_trans (hsub.filter _).length_le h.oneHide
  · intro t htm hnot hk
    rcases hmem t htm with h1 | rfl
    · exact absurd h1 hnot
    · cases hk
  · intro t htm hnot hk
    rcases hmem t htm with h1 | rfl
    · exact absurd h1 hnot
    · cases hk

theorem StepOk_addDelay {s r : State} (h : TimersOk s) (ts : List Timer) (due : Nat)
    (ht : r.timers = ts ++ [{ id := s.nextTimer, kind := .delay, due := due }])
    (hsub : ts.Sublist s.timers)
    (hno : ∀ t ∈ ts, some t.id ≠ s.delayTimer ∧ some t.id ≠ s.hideTimer)
    (hn : r.nextTimer = s.nextTimer + 1) (hd : r.delayTimer = some s.nextTimer)
    (hh : r.hideTimer = s.hideTimer) : StepOk s r := by
  have hmem : ∀ t ∈ r.timers, (t ∈ ts ∧ t ∈ s.timers) ∨
      t = { id := s.nextTimer, kind := .delay, due := due } := by
    intro t htm
    rw [ht] at htm
    rcases List.mem_append.mp htm with h1 | h1
    · exact Or.inl ⟨h1, hsub.subset h1⟩
    · exact Or.inr (by simpa using h1)
  have hnodelay : ∀ t ∈ ts, t.kind ≠ .delay := by
    intro t h1 hk
    exact (hno t h1).1 (h.delayStored t (hsub.subset h1) hk).symm
  have hnohide : ∀ t ∈ ts, t.kind ≠ .hide := by
    intro t h1 hk
    exact (hno t h1).2 (h.hideStored t (hsub.subset h1) hk).symm
  refine ⟨⟨?_, ?_, ?_, ?_, ?_, ?_, ?_, ?_, ?_⟩, ?_, ?_⟩
  · intro t htm
    rw [hn]
    rcases hmem t htm with h1 | rfl
    · exact Nat.lt_succ_of_lt (h.fresh t h1.2)
    · exact Nat.lt_succ_self _
  · intro x hx
    rw [hn]
    rw [hd] at hx
    cases hx
    exact Nat.lt_succ_self _
  · intro x hx; rw [hn]; exact Nat.lt_succ_of_lt (h.hideFresh x (hh ▸ hx))
  · intro t htm hk
    rcases hmem t htm with h1 | rfl
    · exact absurd hk (hnodelay t h1.1)
    · exact hd
  · intro t htm hk
    rcases hmem t htm with h1 | rfl
    · exact absurd hk (hnohide t h1.1)
    · cases hk
  · intro t htm hk
    rcases hmem t htm with h1 | rfl
    · exact h.hideKind t h1.2 (hh ▸ hk)
    · rw [hh] at hk
      have := h.hideFresh _ hk
      simp at this
  · intro t _ _ u hu
    rcases hmem u hu with h2 | rfl
    · exact hnohide u h2.1
    · simp
  · show (r.timers.filter _).length ≤ 1
    rw [ht]
    exact filter_kind_nil_append _ _ _ hnodelay
  · show (r.timers.filter _).length ≤ 1
    rw [ht, filter_kind_append_other _ _ _ (by simp)]
    exact Nat.le_trans (hsub.filter _).length_le h.oneHide
  · intro t _ _ _
    rw [isPending_eq_false_iff]
    intro u hu
    rcases hmem u hu with h2 | rfl
    · exact (hno u h2.1).1
    · intro heq
      have := h.delayFresh _ heq.symm
      simp at this
  · intro t htm hnot hk
    rcases hmem t htm with h1 | rfl
    · exact absurd h1.2 hnot
    · cases hk

theorem StepOk_addHide {s r : State} (h : TimersOk s) (ts : List Timer) (due : Nat)
    (ht : r.timers = ts ++ [{ id := s.nextTimer, kind := .hide, due := due }])
    (hsub : ts.Sublist s.timers)
    (hno : ∀ t ∈ ts, t.kind ≠ .delay ∧ t.kind ≠ .hide)
    (hn : r.nextTimer = s.nextTimer + 1) (hd : r.delayTimer = s.delayTimer)
    (hh : r.hideTimer = some s.nextTimer) : StepOk s r := by
  have hmem : ∀ t ∈ r.timers, (t ∈ ts ∧ t ∈ s.timers) ∨
      t = { id := s.nextTimer, kind := .hide, due := due } := by
    intro t htm
    rw [ht] at htm
    rcases List.mem_append.mp htm with h1 | h1
    · exact Or.inl ⟨h1, hsub.subset h1⟩
    · exact Or.inr (by simpa using h1)
  refine ⟨⟨?_, ?_, ?_, ?_, ?_, ?_, ?_, ?_, ?_⟩, ?_, ?_⟩
  · intro t htm
    rw [hn]
    rcases hmem t htm with h1 | rfl
    · exact Nat.lt_succ_of_lt (h.fresh t h1.2)
    · exact Nat.lt_succ_self _
  · intro x hx; rw [hn]; exact Nat.lt_succ_of_lt (h.delayFresh x (hd ▸ hx))
  · intro x hx
    rw [hn]
    rw [hh] at hx
    cases hx
    exact Nat.lt_succ_self _
  · intro t htm hk
    rcases hmem t htm with h1 | rfl
    · exact absurd hk (hno t h1.1).1
    · cases hk
  · intro t htm hk
    rcases hmem t htm with h1 | rfl
    · exact absurd hk (hno t h1.1).2
    · exact hh
  · intro t htm hk
    rcases hmem t htm with h1 | rfl
    · rw [hh] at hk
      have h2 := h.fresh t h1.2
      simp only [Option.some.injEq] at hk
      omega
    · rfl
  · intro t htm hk u _
    rcases hmem t htm with h1 | rfl
    · exact absurd hk (hno t h1.1).1
    · cases hk
  · show (r.timers.filter _).length ≤ 1
    rw [ht, filter_kind_append_other _ _ _ (by simp)]
    exact Nat.le_trans (hsub.filter _).length_le h.oneDelay
  · show (r.timers.filter _).length ≤ 1
    rw [ht]
    exact filter_kind_nil_append _ _ _ (fun t h1 => (hno t h1).2)
  · intro t htm hnot hk
    rcases hmem t htm with h1 | rfl
    · exact absurd h1.2 hnot
    · cases hk
  · intro t _ _ _
    rw [isPending_eq_false_iff]
    intro u hu
    rcases hmem u hu with h2 | rfl
    · intro heq
      exact (hno u h2.1).2 (h.hideKind u h2.2 heq.symm)
    · intro heq
      have := h.hideFresh _ heq.symm
      simp at this

theorem StepOk_refl {s : State} (h : TimersOk s) : StepOk s s :=
  StepOk_shrink h (List.Sublist.refl _) rfl rfl rfl

theorem setTooltipVisibility_StepOk (b : Bool) (s : State) (h : TimersOk s) :
    StepOk s (setTooltipVisibility b s) := by
  obtain ⟨⟨ts, hts, hsub⟩, hn, hd, hh, _⟩ := setTooltipVisibility_effect b s
  exact StepOk_addDebounce h ts b _ hts hsub hn hd hh

theorem fireTimer_StepOk (cfg : Config) (t : Timer) (s : State) (h : TimersOk s)
    (ht : t ∈ s.timers) : StepOk s (fireTimer cfg t s) := by
  have hs1 : (s.timers.filter (fun u => u.id != t.id)).Sublist s.timers :=
    List.filter_sublist _
  unfold fireTimer
  cases hk : t.kind with
  | debounce b =>
    simp only []
    obtain ⟨_, _, _, hh, _, hcase⟩ := visibilityBody_effect cfg b
      { s with now := max s.now t.due, timers := s.timers.filter (fun u => u.id != t.id) }
    rcases hcase with ⟨hsub, hn, hd, _⟩ | ⟨ts, hts, hsub, hno, hn, hd, _⟩
    · exact StepOk_shrink h (hsub.trans hs1) hn hd hh
    · exact StepOk_addDelay h ts _ hts (hsub.trans hs1) hno hn hd hh
  | delay =>
    simp only []
    obtain ⟨_, _, hd, hcase⟩ := delayCallback_effect cfg
      { s with now := max s.now t.due, timers := s.timers.filter (fun u => u.id != t.id) }
    rcases hcase with ⟨hts, hn, hh⟩ | ⟨hts, hn, hh⟩
    · exact StepOk_shrink h (hts ▸ hs1) hn hd hh
    · refine StepOk_addHide h _ _ hts hs1 ?_ hn hd hh
      intro u hu
      have hu2 := List.mem_filter.mp hu
      have hne : u.id ≠ t.id := by simpa using hu2.2
      constructor
      · intro hku
        have h1 := h.delayStored u hu2.1 hku
        have h2 := h.delayStored t ht hk
        rw [h1] at h2
        exact hne (Option.some.inj h2)
      · exact h.exclusive t ht hk u hu2.1
  | hide =>
    simp only []
    exact StepOk_shrink h hs1 rfl rfl rfl

theorem step_StepOk (cfg : Config) (a : Action) (s : State) (h : TimersOk s) :
    StepOk s (step cfg a s) := by
  cases a with
  | dom l which =>
    simp only [step]
    split
    · cases l <;> simp only [runListener]
      all_goals first
        | exact setTooltipVisibility_StepOk _ s h
        | (split
           · exact setTooltipVisibility_StepOk _ s h
           · exact StepOk_refl h)
    · exact StepOk_refl h
  | fire id =>
    simp only [step]
    split
    · rename_i t hfind
      exact fireTimer_StepOk cfg t s h (List.mem_of_find?_eq_some hfind)
    · exact StepOk_refl h
  | elapse ms => exact StepOk_shrink h (List.Sublist.refl _) rfl rfl rfl
  | host x y =>
    simp only [step]
    split
    · exact StepOk_shrink h (List.Sublist.refl _) rfl rfl rfl
    · exact StepOk_refl h
  | tooltips n => exact StepOk_shrink h (List.Sublist.refl _) rfl rfl rfl

theorem initialState_TimersOk (widget : Widget) (context : Option Context)
    (now otherTooltips : Nat) :
    TimersOk (initialState widget context now otherTooltips) := by
  refine ⟨?_, ?_, ?_, ?_, ?_, ?_, ?_, ?_, ?_⟩ <;>
    simp [initialState, delayTimers, hideTimers]

theorem run_TimersOk (cfg : Config) (actions : List Action) (s : State) (h : TimersOk s) :
    TimersOk (run cfg actions s) := by
  induction actions generalizing s with
  | nil => exact h
  | cons a rest ih => exact ih (step cfg a s) (step_StepOk cfg a s h).1

/-- C10: in every state a run of a tooltip reaches, at most one show timer and at most one
auto-hide timer are pending; and when the next action sets a new timer of either kind,
the timer stored before in `_delayTimer` (respectively `_hideTimer`) is pending no more:
it was cancelled or it has fired. -/
theorem at_most_one_timer_of_each_kind (widget : Widget) (context : Option Context)
    (now otherTooltips : Nat) (cfg : Config) (actions : List Action) (a : Action) :
    (delayTimers (run cfg actions (initialState widget context now otherTooltips))).length
      ≤ 1 ∧
    (hideTimers (run cfg actions (initialState widget context now otherTooltips))).length
      ≤ 1 ∧
    (∀ t ∈ (step cfg a
          (run cfg actions (initialState widget context now otherTooltips))).timers,
      t ∉ (run cfg actions (initialState widget context now otherTooltips)).timers →
      t.kind = .delay →
      isPending (run cfg actions (initialState widget context now otherTooltips)).delayTimer
        (step cfg a (run cfg actions (initialState widget context now otherTooltips)))
        = false) ∧
    (∀ t ∈ (step cfg a
          (run cfg actions (initialState widget context now otherTooltips))).timers,
      t ∉ (run cfg actions (initialState widget context now otherTooltips)).timers →
      t.kind = .hide →
      isPending (run cfg actions (initialState widget context now otherTooltips)).hideTimer
        (step cfg a (run cfg actions (initialState widget context now otherTooltips)))
        = false) := by
  have hok := run_TimersOk cfg actions _
    (initialState_TimersOk widget context now otherTooltips)
  have hstep := step_StepOk cfg a _ hok
  exact ⟨hok.oneDelay, hok.oneHide, hstep.2.1, hstep.2.2⟩

/-! ## The delay of the show timer -/

theorem showTooltipDelay_eq (cfg : Config) (s : State) :
    showTooltipDelay cfg s =
      if truthy cfg.options.delayOnChange = false ∧ tooltipElements s ≠ 0 then .num (.int 0)
      else cfg.options.delay := by
  unfold showTooltipDelay
  cases h : truthy cfg.options.delayOnChange <;>
    by_cases h0 : tooltipElements s = 0 <;> simp [h0]

theorem showTooltipDelay_of_quiet (cfg : Config) (s : State)
    (h : truthy cfg.options.delayOnChange = true ∨
      (s.otherTooltips = 0 ∧ s.inDocument = false)) :
    showTooltipDelay cfg s = cfg.options.delay := by
  rw [showTooltipDelay_eq]
  rcases h with h | ⟨h1, h2⟩
  · simp [h]
  · simp [tooltipElements, h1, h2]

theorem waitOf_nat (d : Nat) : waitOf (.num (.int (d : Int))) = d := by
  simp [waitOf]

theorem setTooltipVisibility_NotBefore (cfg : Config) (start d shows : Nat) (b : Bool)
    (s : State) (h : NotBefore cfg start d shows s) :
    NotBefore cfg start d shows (setTooltipVisibility b s) := by
  obtain ⟨⟨ts, hts, hsub⟩, _, _, _, hnow, hhid, hshows, hoth, hdoc⟩ :=
    setTooltipVisibility_effect b s
  have hmem : ∀ t ∈ (setTooltipVisibility b s).timers, t ∈ s.timers ∨
      t = { id := s.nextTimer, kind := .debounce b, due := s.now + 150 } := by
    intro t ht
    rw [hts] at ht
    rcases List.mem_append.mp ht with h1 | h1
    · exact Or.inl (hsub.subset h1)
    · exact Or.inr (by simpa using h1)
  refine ⟨?_, ?_, ?_, ?_, ?_⟩
  · rw [hnow]; exact h.later
  · intro t ht c hk
    rcases hmem t ht with h1 | rfl
    · exact h.debounceDue t h1 c hk
    · have := h.later
      show start + 150 ≤ s.now + 150
      omega
  · intro t ht hk
    rcases hmem t ht with h1 | rfl
    · exact h.delayDue t h1 hk
    · cases hk
  · rw [hnow, hhid, hshows, hdoc]; exact h.hiddenBefore
  · rw [hoth]; exact h.quiet

theorem NotBefore_congr (cfg : Config) (start d shows : Nat) (u r : State)
    (h : NotBefore cfg start d shows u) (hnow : r.now = u.now) (ht : r.timers = u.timers)
    (hh : r.hidden = u.hidden) (hdoc : r.inDocument = u.inDocument)
    (hs : r.showCalls = u.showCalls) (ho : r.otherTooltips = u.otherTooltips) :
    NotBefore cfg start d shows r := by
  refine ⟨?_, ?_, ?_, ?_, ?_⟩
  · rw [hnow]; exact h.later
  · rw [ht]; exact h.debounceDue
  · rw [ht]; exact h.delayDue
  · rw [hnow, hh, hdoc, hs]; exact h.hiddenBefore
  · rw [ho]; exact h.quiet

theorem NotBefore_fired (cfg : Config) (start d shows : Nat) (t : Timer) (s : State)
    (h : NotBefore cfg start d shows s) :
    NotBefore cfg start d shows
      { s with now := max s.now t.due, timers := s.timers.filter (fun u => u.id != t.id) } := by
  have hfil : ∀ u ∈ s.timers.filter (fun u => u.id != t.id), u ∈ s.timers :=
    fun u hu => (List.mem_filter.mp hu).1
  have hlater := h.later
  refine ⟨?_, ?_, ?_, ?_, h.quiet⟩
  · show start ≤ max s.now t.due
    omega
  · intro u hu c hku
    exact h.debounceDue u (hfil u hu) c hku
  · intro u hu hku
    exact h.delayDue u (hfil u hu) hku
  · intro hbefore
    have hb : max s.now t.due < start + 150 + d := hbefore
    exact h.hiddenBefore (by omega)

theorem visibilityBody_NotBefore (cfg : Config) (start d shows : Nat) (b : Bool) (u : State)
    (hdelay : cfg.options.delay = .num (.int (d : Int)))
    (hwidget : truthy cfg.widget.hiddenValue = true)
    (h : NotBefore cfg start d shows u) (hdue : start + 150 ≤ u.now) :
    NotBefore cfg start d shows (visibilityBody cfg b u) := by
  obtain ⟨hnow, hshows, hoth, _, hhid, hcase⟩ := visibilityBody_effect cfg b u
  refine ⟨?_, ?_, ?_, ?_, ?_⟩
  · rw [hnow]; exact h.later
  · intro x hx c hkx
    rcases hcase with ⟨hsub, _⟩ | ⟨ts, hts, hsub, _⟩
    · exact h.debounceDue x (hsub.subset hx) c hkx
    · rw [hts] at hx
      rcases List.mem_append.mp hx with h1 | h1
      · exact h.debounceDue x (hsub.subset h1) c hkx
      · have hx2 : x = (⟨u.nextTimer, .delay, u.now + waitOf (showTooltipDelay cfg u)⟩ : Timer) := by
          simpa using h1
        rw [hx2] at hkx
        cases hkx
  · intro x hx hkx
    rcases hcase with ⟨hsub, _⟩ | ⟨ts, hts, hsub, _⟩
    · exact h.delayDue x (hsub.subset hx) hkx
    · rw [hts] at hx
      rcases List.mem_append.mp hx with h1 | h1
      · exact h.delayDue x (hsub.subset h1) hkx
      · have hx2 : x = (⟨u.nextTimer, .delay, u.now + waitOf (showTooltipDelay cfg u)⟩ : Timer) := by
          simpa using h1
        rw [hx2]
        show start + 150 + d ≤ u.now + waitOf (showTooltipDelay cfg u)
        by_cases hb : u.now < start + 150 + d
        · obtain ⟨_, hdoc, _⟩ := h.hiddenBefore hb
          have hq : showTooltipDelay cfg u = cfg.options.delay := by
            apply showTooltipDelay_of_quiet
            rcases h.quiet with hq | hq
            · exact Or.inl hq
            · exact Or.inr ⟨hq, hdoc⟩
          rw [hq, hdelay, waitOf_nat]
          omega
        · omega
  · intro hbefore
    rw [hnow] at hbefore
    obtain ⟨hh, hdoc, hsh⟩ := h.hiddenBefore hbefore
    rw [hshows]
    rcases hhid with ⟨h1, h2⟩ | ⟨h1, h2⟩
    · rw [h1, h2]; exact ⟨hh, hdoc, hsh⟩
    · rw [h1, h2]; exact ⟨hwidget, rfl, hsh⟩
  · rw [hoth]; exact h.quiet

theorem delayCallback_NotBefore (cfg : Config) (start d shows : Nat) (u : State)
    (h : NotBefore cfg start d shows u) (hdue : start + 150 + d ≤ u.now) :
    NotBefore cfg start d shows (delayCallback cfg u) := by
  obtain ⟨hnow, hoth, _, hcase⟩ := delayCallback_effect cfg u
  have hmem : ∀ x ∈ (delayCallback cfg u).timers, x ∈ u.timers ∨ x.kind = .hide := by
    intro x hx
    rcases hcase with ⟨hts, _⟩ | ⟨hts, _⟩
    · rw [hts] at hx
      exact Or.inl hx
    · rw [hts] at hx
      rcases List.mem_append.mp hx with h1 | h1
      · exact Or.inl h1
      · have hx2 : x = (⟨u.nextTimer, .hide, u.now + waitOf cfg.options.duration⟩ : Timer) := by
          simpa using h1
        rw [hx2]
        exact Or.inr rfl
  refine ⟨?_, ?_, ?_, ?_, ?_⟩
  · rw [hnow]; exact h.later
  · intro x hx c hkx
    rcases hmem x hx with h1 | h1
    · exact h.debounceDue x h1 c hkx
    · rw [h1] at hkx; cases hkx
  · intro x hx hkx
    rcases hmem x hx with h1 | h1
    · exact h.delayDue x h1 hkx
    · rw [h1] at hkx; cases hkx
  · intro hbefore
    rw [hnow] at hbefore
    omega
  · rw [hoth]; exact h.quiet

theorem tooltipHide_NotBefore (cfg : Config) (start d shows : Nat) (u : State)
    (hwidget : truthy cfg.widget.hiddenValue = true)
    (h : NotBefore cfg start d shows u) :
    NotBefore cfg start d shows (tooltipHide cfg u) := by
  refine ⟨h.later, h.debounceDue, h.delayDue, ?_, h.quiet⟩
  intro hbefore
  have hb : u.now < start + 150 + d := hbefore
  exact ⟨hwidget, rfl, (h.hiddenBefore hb).2.2⟩

theorem fireTimer_NotBefore (cfg : Config) (start d shows : Nat) (t : Timer) (s : State)
    (hdelay : cfg.options.delay = .num (.int (d : Int)))
    (hwidget : truthy cfg.widget.hiddenValue = true)
    (h : NotBefore cfg start d shows s) (ht : t ∈ s.timers) :
    NotBefore cfg start d shows (fireTimer cfg t s) := by
  have h1 := NotBefore_fired cfg start d shows t s h
  unfold fireTimer
  cases hk : t.kind with
  | debounce b =>
    simp only []
    have hdue := h.debounceDue t ht b hk
    have hge : start + 150 ≤ max s.now t.due := by omega
    have h2 := visibilityBody_NotBefore cfg start d shows b _ hdelay hwidget h1 hge
    exact NotBefore_congr cfg start d shows _ _ h2 rfl rfl rfl rfl rfl rfl
  | delay =>
    simp only []
    have hdue := h.delayDue t ht hk
    have hge : start + 150 + d ≤ max s.now t.due := by omega
    exact delayCallback_NotBefore cfg start d shows _ h1 hge
  | hide =>
    simp only []
    exact tooltipHide_NotBefore cfg start d shows _ hwidget h1

theorem step_NotBefore (cfg : Config) (start d shows : Nat) (a : Action) (s : State)
    (hdelay : cfg.options.delay = .num (.int (d : Int)))
    (hwidget : truthy cfg.widget.hiddenValue = true)
    (hquiet : truthy cfg.options.delayOnChange = true ∨ keepsNoTooltip a = true)
    (h : NotBefore cfg start d shows s) :
    NotBefore cfg start d shows (step cfg a s) := by
  cases a with
  | dom l which =>
    simp only [step]
    split
    · cases l <;> simp only [runListener]
      all_goals first
        | exact setTooltipVisibility_NotBefore cfg start d shows _ s h
        | (split
           · exact setTooltipVisibility_NotBefore cfg start d shows _ s h
           · exact h)
    · exact h
  | fire id =>
    simp only [step]
    split
    · rename_i t hfind
      exact fireTimer_NotBefore cfg start d shows t s hdelay hwidget h
        (List.mem_of_find?_eq_some hfind)
    · exact h
  | elapse ms =>
    refine ⟨?_, h.debounceDue, h.delayDue, ?_, h.quiet⟩
    · show start ≤ s.now + ms
      have := h.later
      omega
    · intro hbefore
      have hb : s.now + ms < start + 150 + d := hbefore
      exact h.hiddenBefore (by omega)
  | host x y =>
    simp only [step]
    split
    · exact ⟨h.later, h.debounceDue, h.delayDue, h.hiddenBefore, h.quiet⟩
    · exact h
  | tooltips n =>
    refine ⟨h.later, h.debounceDue, h.delayDue, h.hiddenBefore, ?_⟩
    rcases hquiet with hq | hq
    · exact Or.inl hq
    · right
      show n = 0
      simpa [keepsNoTooltip] using hq

theorem run_NotBefore (cfg : Config) (start d shows : Nat) (actions : List Action) (s : State)
    (hdelay : cfg.options.delay = .num (.int (d : Int)))
    (hwidget : truthy cfg.widget.hiddenValue = true)
    (hquiet : truthy cfg.options.delayOnChange = true ∨
      ∀ a ∈ actions, keepsNoTooltip a = true)
    (h : NotBefore cfg start d shows s) :
    NotBefore cfg start d shows (run cfg actions s) := by
  induction actions generalizing s with
  | nil => exact h
  | cons a rest ih =>
    have hq1 : truthy cfg.options.delayOnChange = true ∨ keepsNoTooltip a = true := by
      rcases hquiet with hq | hq
      · exact Or.inl hq
      · exact Or.inr (hq a (List.mem_cons_self a rest))
    have hq2 : truthy cfg.options.delayOnChange = true ∨
        ∀ b ∈ rest, keepsNoTooltip b = true := by
      rcases hquiet with hq | hq
      · exact Or.inl hq
      · exact Or.inr (fun b hb => hq b (List.mem_cons_of_mem a hb))
    exact ih (step cfg a s) hq2 (step_NotBefore cfg start d shows a s hdelay hwidget hq1 h)

/-- C6, counterexample.  (1) With `delayOnChange: false`, `delay: 1000` and no other tooltip
in the document, a request to show the tooltip while it is shown (a `focusin` at 1200 ms)
gets a show timer without delay, due at 1350 ms when the debounced function runs: line 64
counts the tooltip's own element.  (2) With `delayOnChange` unset and one other tooltip
in the document, the show timer has no delay either: it is due at 150 ms, not at
1150 ms.  (3) With `delayOnChange: true` and `delay: 1000`, a `focusin` at 1100 ms that
follows a `mouseenter` at 0 ms finds the tooltip shown 50 ms later, at 1150 ms. -/
theorem show_timer_delay_counts_own_tooltip :
    (∃ r, renderTooltip numericWidget 1 0 0 divElement (some noDelayOnChangeOptions)
          (some liveContext) = .ok r ∧
      runOnTime r.cfg reshowRun r.state = true ∧
      (run r.cfg (reshowRun.take 8) r.state).otherTooltips = 0 ∧
      isShown (run r.cfg (reshowRun.take 8) r.state) = true ∧
      (run r.cfg (reshowRun.take 8) r.state).timers
        = [{ id := 2, kind := .debounce true, due := 1350 }] ∧
      (run r.cfg reshowRun r.state).timers = [{ id := 3, kind := .delay, due := 1350 }]) ∧
    (∃ r, renderTooltip numericWidget 1 0 1 divElement (some delayOptions)
          (some liveContext) = .ok r ∧
      r.cfg.options.delayOnChange = .undefined ∧
      runOnTime r.cfg requestRun r.state = true ∧
      (run r.cfg requestRun r.state).timers = [{ id := 1, kind := .delay, due := 150 }]) ∧
    (∃ r, renderTooltip numericWidget 1 0 0 divElement (some delayOnChangeOptions)
          (some liveContext) = .ok r ∧
      runOnTime r.cfg secondRequestRun r.state = true ∧
      (run r.cfg (secondRequestRun.take 5) r.state).now = 1100 ∧
      isShown (run r.cfg (secondRequestRun.take 5) r.state) = false ∧
      (run r.cfg secondRequestRun r.state).now = 1150 ∧
      isShown (run r.cfg secondRequestRun r.state) = true) := by
  refine ⟨⟨_, rfl, ?_, ?_, ?_, ?_, ?_⟩, ⟨_, rfl, ?_, ?_, ?_⟩, ⟨_, rfl, ?_, ?_, ?_, ?_, ?_⟩⟩ <;>
    decide

/-- C6, amended: on the show path of `setTooltipVisibility` the delay given to the show
timer is the configured `delay`, except that it is 0 exactly when `delayOnChange` is falsy
(`false`, or unset) and at least one element of class `tooltip` is in the document, that
of this tooltip included while it is shown.  Consequently, for every delay `d`, when no
other tooltip is present (or `delayOnChange` is truthy), a tooltip that is hidden with no
show timer and no debounced call pending at the time `start` is not shown, and `show()`
is not called, before `start + 150 + d`; so it does not become visible earlier than `d` ms
after a show event at that time. -/
theorem show_timer_delay (cfg : Config) (d : Nat) :
    (∀ s : State, showTooltipDelay cfg s =
      if truthy cfg.options.delayOnChange = false ∧
          (s.otherTooltips ≠ 0 ∨ s.inDocument = true) then .num (.int 0)
      else cfg.options.delay) ∧
    (∀ s : State, strictEq s.hidden (.bool true) = false →
      (∀ c, s.context = some c → c.isDestroying = false) →
      (visibilityBody cfg true s).timers
        = (runCancel s.hideTimer (runCancel s.delayTimer s)).timers ++
          [{ id := s.nextTimer, kind := .delay,
             due := s.now + waitOf (showTooltipDelay cfg s) }]) ∧
    (cfg.options.delay = .num (.int (d : Int)) → truthy cfg.widget.hiddenValue = true →
      ∀ (s : State) (actions : List Action),
        truthy s.hidden = true → s.inDocument = false →
        (∀ t ∈ s.timers, t.kind = .hide) →
        (truthy cfg.options.delayOnChange = true ∨
          (s.otherTooltips = 0 ∧ ∀ a ∈ actions, keepsNoTooltip a = true)) →
        ((run cfg actions s).now < s.now + 150 + d →
          isShown (run cfg actions s) = false ∧
          (run cfg actions s).showCalls = s.showCalls) ∧
        (isShown (run cfg actions s) = true → s.now + d ≤ (run cfg actions s).now)) := by
  refine ⟨?_, ?_, ?_⟩
  · intro s
    rw [showTooltipDelay_eq]
    have hiff : tooltipElements s ≠ 0 ↔ (s.otherTooltips ≠ 0 ∨ s.inDocument = true) := by
      unfold tooltipElements
      cases s.inDocument <;> simp
    simp only [hiff]
  · intro s hne hlive
    exact (visibilityBody_show_path cfg s hne hlive).1
  · intro hdelay hwidget s actions hhidden hdoc htimers hquiet
    have h0 : NotBefore cfg s.now d s.showCalls s := by
      refine ⟨Nat.le_refl _, ?_, ?_, fun _ => ⟨hhidden, hdoc, rfl⟩, ?_⟩
      · intro t ht b hk
        rw [htimers t ht] at hk
        cases hk
      · intro t ht hk
        rw [htimers t ht] at hk
        cases hk
      · rcases hquiet with hq | hq
        · exact Or.inl hq
        · exact Or.inr hq.1
    have hq : truthy cfg.options.delayOnChange = true ∨
        ∀ a ∈ actions, keepsNoTooltip a = true := by
      rcases hquiet with hq | hq
      · exact Or.inl hq
      · exact Or.inr hq.2
    have hrun := run_NotBefore cfg s.now d s.showCalls actions s hdelay hwidget hq h0
    have hfirst : (run cfg actions s).now < s.now + 150 + d →
        isShown (run cfg actions s) = false ∧
        (run cfg actions s).showCalls = s.showCalls := by
      intro hb
      obtain ⟨h1, _, h3⟩ := hrun.hiddenBefore hb
      exact ⟨by simp [isShown, h1], h3⟩
    refine ⟨hfirst, ?_⟩
    intro hshown
    by_contra hlt
    have hb : (run cfg actions s).now < s.now + 150 + d := by omega
    rw [(hfirst hb).1] at hshown
    cases hshown

/-- C6, witness: the delay test, `{ event: 'hover', delay: 1000 }` with no other tooltip:
the pointer enters at 0 ms and the tooltip, shown at the end of `delayedShowRun`, is
shown no earlier than 1000 ms later; and the show timer of a hidden tooltip, set at
150 ms, is due 1000 ms later. -/
theorem show_timer_delay_witness :
    ∃ r, renderTooltip numericWidget 1 0 0 divElement (some delayOptions)
          (some liveContext) = .ok r ∧
      isShown (run r.cfg delayedShowRun r.state) = true ∧
      0 + 1000 ≤ (run r.cfg delayedShowRun r.state).now ∧
      (visibilityBody r.cfg true (run r.cfg (delayedShowRun.take 2) r.state)).timers
        = [{ id := 0, kind := .debounce true, due := 150 },
           { id := 1, kind := .delay, due := 1150 }] := by
  refine ⟨_, rfl, by decide, ?_, ?_⟩
  · exact ((show_timer_delay _ 1000).2.2 (by rfl) (by rfl)
      (initialState numericWidget (some liveContext) 0 0) delayedShowRun (by rfl) (by rfl)
      (by decide) (Or.inr ⟨by rfl, by decide⟩)).2 (by decide)
  · exact ((show_timer_delay _ 1000).2.1 (run _ (delayedShowRun.take 2) _) (by decide)
      (by decide)).trans (by decide)

/-- C10, witness: in `showAgainRun`, the last action (timer 3 fires, the debounced function
runs) sets the show timer 4 while `_delayTimer` holds the handle 1, which is pending no
more; and `showRun` ends with one auto-hide timer pending and no show timer. -/
theorem at_most_one_timer_of_each_kind_witness :
    ∃ r, renderTooltip numericWidget 1 0 0 divElement (some autoHideOptions)
          (some liveContext) = .ok r ∧
      (run r.cfg (showAgainRun.take 7) r.state).delayTimer = some 1 ∧
      isPending (some 1) (step r.cfg (.fire 3) (run r.cfg (showAgainRun.take 7) r.state))
        = false ∧
      (hideTimers (run r.cfg showRun r.state)).length ≤ 1 := by
  refine ⟨_, rfl, by decide, ?_, ?_⟩
  · exact (at_most_one_timer_of_each_kind numericWidget (some liveContext) 0 0 _
      (showAgainRun.take 7) (.fire 3)).2.2.1 { id := 4, kind := .delay, due := 350 }
      (by decide) (by decide) (by rfl)
  · exact (at_most_one_timer_of_each_kind numericWidget (some liveContext) 0 0 _
      showRun (.fire 2)).2.1

end EmberTooltips
